import Mathlib

/-!
# Elliptics node (`library/dnet.c`): command handlers, dispatcher, transforms

A shallow embedding of the handlers of `src/library/dnet.c`.  C structures become
Lean structures whose integer fields hold the value the host reads from memory;
the byte-order converters, the host representation of integers and the
compile-time constants of the headers that are not part of `src/` are collected
in `Abi`.  The file system below the node root, the socket and `errno` are an
explicit `World` that every handler threads through.
-/

namespace Elliptics

/-! ## Constants -/

abbrev ENOENT : Int := 2
abbrev ENOMEM : Int := 12
abbrev EEXIST : Int := 17
abbrev ENOTDIR : Int := 20
abbrev EISDIR : Int := 21
abbrev EINVAL : Int := 22
abbrev EPROTO : Int := 71

/-- Modelled from the spec: `dnet/packet.h` is not in src; §6 gives `NEED_ACK` = 1. -/
abbrev DNET_FLAGS_NEED_ACK : Nat := 1
/-- Modelled from the spec: §6 gives `MORE` = 2. -/
abbrev DNET_FLAGS_MORE : Nat := 2
/-- Modelled from the spec: §6 gives `DESTROY` = 4. -/
abbrev DNET_FLAGS_DESTROY : Nat := 4
/-- Modelled from the spec: §6 puts `REPLY` on the high bit of the 64-bit `trans`. -/
abbrev DNET_TRANS_REPLY : Nat := 9223372036854775808

/-- Modelled from the spec: `dnet/packet.h` is not in src; `APPEND` and `UPDATE` are two
distinct bits of `io_attr.flags` (§3), taken as bit 0 and bit 1. -/
abbrev DNET_IO_FLAGS_APPEND : Nat := 1
/-- Modelled from the spec: see `DNET_IO_FLAGS_APPEND`. -/
abbrev DNET_IO_FLAGS_UPDATE : Nat := 2

/-- Modelled from the spec: the command selectors of `dnet/packet.h` (not in src) are
pairwise distinct values; they are numbered in the order of the dispatcher's `switch`. -/
abbrev DNET_CMD_LOOKUP : Nat := 1
abbrev DNET_CMD_REVERSE_LOOKUP : Nat := 2
abbrev DNET_CMD_JOIN : Nat := 3
abbrev DNET_CMD_WRITE : Nat := 4
abbrev DNET_CMD_READ : Nat := 5
abbrev DNET_CMD_LIST : Nat := 6

/-! ## Wire structures -/

/-- The command header `struct dnet_cmd`. -/
structure dnet_cmd where
  id : List Nat
  flags : Nat
  status : Int
  size : Nat
  trans : Nat
deriving DecidableEq, Repr

/-- The attribute header `struct dnet_attr`. -/
structure dnet_attr where
  cmd : Nat
  size : Nat
  flags : Nat
deriving DecidableEq, Repr

/-- The IO attribute `struct dnet_io_attr`. -/
structure dnet_io_attr where
  id : List Nat
  offset : Nat
  size : Nat
  flags : Nat
deriving DecidableEq, Repr

/-- The address attribute `struct dnet_addr_attr`. -/
structure dnet_addr_attr where
  addr : List Nat
  addr_len : Nat
  sock_type : Int
  proto : Int
  family : Nat
deriving DecidableEq, Repr

/-- The composite `struct dnet_addr_cmd`: command header, attribute header, address. -/
structure dnet_addr_cmd where
  cmd : dnet_cmd
  a : dnet_attr
  addr : dnet_addr_attr
deriving DecidableEq, Repr

/-! ## Platform: constants, byte order, memory representation -/

/-- Modelled from the spec: `dnet/packet.h`, `elliptics.h` and `config.h` are not in src.
The record holds what they fix: the identifier width, the read chunk limit, the width of
the socket address inside `dnet_addr_attr`, the byte swaps the converters apply to
16/32/64-bit fields (§4.A: identity on a network-order host, a byte reversal otherwise),
and how the host lays an integer out in memory (`store width value`) and reads it back
(`load bytes`). -/
structure Abi where
  DNET_ID_SIZE : Nat
  DNET_MAX_READ_TRANS_SIZE : Nat
  SOCKADDR_SIZE : Nat
  dnet_bswap16 : Nat → Nat
  dnet_bswap32 : Nat → Nat
  dnet_bswap64 : Nat → Nat
  load : List Nat → Nat
  store : Nat → Nat → List Nat

/-- The C conversion of an `int` to a 32-bit unsigned field. -/
def to_u32 (x : Int) : Nat := (x % 4294967296).toNat

/-- The C conversion of a 32-bit pattern (or a wider integer, truncated) to `int`. -/
def to_s32 (u : Nat) : Int :=
  if u % 4294967296 < 2147483648 then ((u % 4294967296 : Nat) : Int)
  else ((u % 4294967296 : Nat) : Int) - 4294967296

/-- The byte swap applied to a signed 32-bit field. -/
def bswap_s32 (abi : Abi) (x : Int) : Int := to_s32 (abi.dnet_bswap32 (to_u32 x))

/-- Modelled from the spec: §6, `cmd` is source OID + flags u32 + status i32 + size u64 +
trans u64. -/
def sizeof_dnet_cmd (abi : Abi) : Nat := abi.DNET_ID_SIZE + 24

/-- Modelled from the spec: §6, `attr` is cmd u32 + size u32 + flags u32. -/
def sizeof_dnet_attr : Nat := 12

/-- Modelled from the spec: §6, `io_attr` is id[ID_SIZE] + offset u64 + size u64 +
flags u32. -/
def sizeof_dnet_io_attr (abi : Abi) : Nat := abi.DNET_ID_SIZE + 20

/-- Modelled from the spec: §6, `address_attr` is addr bytes + addr_len u32 + sock_type i32
+ proto i32 + family u16. -/
def sizeof_dnet_addr_attr (abi : Abi) : Nat := abi.SOCKADDR_SIZE + 14

/-- Modelled from the spec: §3, the address command is the three headers back to back. -/
def sizeof_dnet_addr_cmd (abi : Abi) : Nat :=
  sizeof_dnet_cmd abi + sizeof_dnet_attr + sizeof_dnet_addr_attr abi

/-- Modelled from the spec: `dnet_convert_cmd` of `dnet/packet.h` (not in src) swaps every
integer field of the header in place (§4.A). -/
def dnet_convert_cmd (abi : Abi) (c : dnet_cmd) : dnet_cmd :=
  { c with flags := abi.dnet_bswap32 c.flags
           status := bswap_s32 abi c.status
           size := abi.dnet_bswap64 c.size
           trans := abi.dnet_bswap64 c.trans }

/-- Modelled from the spec: `dnet_convert_attr` of `dnet/packet.h` (not in src). -/
def dnet_convert_attr (abi : Abi) (a : dnet_attr) : dnet_attr :=
  { cmd := abi.dnet_bswap32 a.cmd
    size := abi.dnet_bswap32 a.size
    flags := abi.dnet_bswap32 a.flags }

/-- Modelled from the spec: `dnet_convert_io_attr` of `dnet/packet.h` (not in src). -/
def dnet_convert_io_attr (abi : Abi) (io : dnet_io_attr) : dnet_io_attr :=
  { io with offset := abi.dnet_bswap64 io.offset
            size := abi.dnet_bswap64 io.size
            flags := abi.dnet_bswap32 io.flags }

/-- Modelled from the spec: `dnet_convert_addr_attr` of `dnet/packet.h` (not in src). -/
def dnet_convert_addr_attr (abi : Abi) (a : dnet_addr_attr) : dnet_addr_attr :=
  { a with addr_len := abi.dnet_bswap32 a.addr_len
           sock_type := bswap_s32 abi a.sock_type
           proto := bswap_s32 abi a.proto
           family := abi.dnet_bswap16 a.family }

/-- Modelled from the spec: `dnet_convert_addr_cmd` is the composition of its member
converters (§4.A). -/
def dnet_convert_addr_cmd (abi : Abi) (l : dnet_addr_cmd) : dnet_addr_cmd :=
  { cmd := dnet_convert_cmd abi l.cmd
    a := dnet_convert_attr abi l.a
    addr := dnet_convert_addr_attr abi l.addr }

/-- The cast `(struct dnet_attr *)data`: the header the host sees at the start of a
buffer. -/
def load_dnet_attr (abi : Abi) (p : List Nat) : dnet_attr :=
  { cmd := abi.load (p.take 4)
    size := abi.load ((p.drop 4).take 4)
    flags := abi.load ((p.drop 8).take 4) }

/-- The cast `(struct dnet_io_attr *)data`. -/
def load_dnet_io_attr (abi : Abi) (p : List Nat) : dnet_io_attr :=
  { id := p.take abi.DNET_ID_SIZE
    offset := abi.load ((p.drop abi.DNET_ID_SIZE).take 8)
    size := abi.load ((p.drop (abi.DNET_ID_SIZE + 8)).take 8)
    flags := abi.load ((p.drop (abi.DNET_ID_SIZE + 16)).take 4) }

/-- The cast `(struct dnet_addr_attr *)data`. -/
def load_dnet_addr_attr (abi : Abi) (p : List Nat) : dnet_addr_attr :=
  { addr := p.take abi.SOCKADDR_SIZE
    addr_len := abi.load ((p.drop abi.SOCKADDR_SIZE).take 4)
    sock_type := to_s32 (abi.load ((p.drop (abi.SOCKADDR_SIZE + 4)).take 4))
    proto := to_s32 (abi.load ((p.drop (abi.SOCKADDR_SIZE + 8)).take 4))
    family := abi.load ((p.drop (abi.SOCKADDR_SIZE + 12)).take 2) }

/-- The bytes of a `struct dnet_cmd` in host memory. -/
def store_dnet_cmd (abi : Abi) (c : dnet_cmd) : List Nat :=
  c.id ++ abi.store 4 c.flags ++ abi.store 4 (to_u32 c.status) ++ abi.store 8 c.size
    ++ abi.store 8 c.trans

/-- The bytes of a `struct dnet_attr` in host memory. -/
def store_dnet_attr (abi : Abi) (a : dnet_attr) : List Nat :=
  abi.store 4 a.cmd ++ abi.store 4 a.size ++ abi.store 4 a.flags

/-- The bytes of a `struct dnet_io_attr` in host memory. -/
def store_dnet_io_attr (abi : Abi) (io : dnet_io_attr) : List Nat :=
  io.id ++ abi.store 8 io.offset ++ abi.store 8 io.size ++ abi.store 4 io.flags

/-! ### The two concrete hosts -/

/-- The `w` low-order bytes of `v`, least significant first. -/
def le_bytes : Nat → Nat → List Nat
  | 0, _ => []
  | w + 1, v => (v % 256) :: le_bytes w (v / 256)

/-- The integer a little-endian byte string denotes. -/
def of_le_bytes : List Nat → Nat
  | [] => 0
  | b :: bs => b % 256 + 256 * of_le_bytes bs

/-- Reversal of the `w` low-order bytes of `v`. -/
def bswap (w v : Nat) : Nat := of_le_bytes (le_bytes w v).reverse

/-- A little-endian host: the converters reverse bytes. -/
def host_le (idSize maxRead sockaddrSize : Nat) : Abi :=
  { DNET_ID_SIZE := idSize
    DNET_MAX_READ_TRANS_SIZE := maxRead
    SOCKADDR_SIZE := sockaddrSize
    dnet_bswap16 := bswap 2
    dnet_bswap32 := bswap 4
    dnet_bswap64 := bswap 8
    load := of_le_bytes
    store := le_bytes }

/-- A big-endian (network-order) host: the converters are the identity. -/
def host_be (idSize maxRead sockaddrSize : Nat) : Abi :=
  { DNET_ID_SIZE := idSize
    DNET_MAX_READ_TRANS_SIZE := maxRead
    SOCKADDR_SIZE := sockaddrSize
    dnet_bswap16 := fun v => v
    dnet_bswap32 := fun v => v
    dnet_bswap64 := fun v => v
    load := fun bs => of_le_bytes bs.reverse
    store := fun w v => (le_bytes w v).reverse }

/-! ## The world: file system below the root, socket, errno -/

abbrev Path := List Char

/-- The system calls the handlers issue on the store, in the order issued. -/
inductive SysOp where
  | mkdirat (dir : Path)
  | opendir (dir : Path)
  | openat (path : Path) (creat : Bool) (append : Bool)
  | pwrite (path : Path) (offset : Nat) (count : Nat)
  | write (path : Path) (count : Nat)
  | fstat (path : Path)
  | close (s : Int)
deriving DecidableEq, Repr

/-- A frame handed to the transport: the headers as laid out for the wire (after the
converters ran) and the raw bytes that follow them. -/
structure Packet where
  cmd : dnet_cmd
  attr : Option dnet_attr
  io : Option dnet_io_attr
  addr : Option dnet_addr_attr
  data : List Nat
deriving DecidableEq, Repr

/-- A peer record `struct dnet_net_state`. -/
structure dnet_net_state where
  id : List Nat
  addr : List Nat
  addr_len : Nat
  s : Int
deriving DecidableEq, Repr

/-- The environment a handler runs in.  `dirs` and `files` are the directories and regular
files below the root, keyed by root-relative path; `sent` are the frames passed to the
transport on the connection, oldest first; `send_rc k` is what the transport returns for
the `k`-th send; `malloc_ok` says whether allocations succeed; `states` is the peer table
of the node and `state_create_ok` says whether `dnet_state_create` yields a state. -/
structure World where
  dirs : List Path
  files : Path → Option (List Nat)
  errno : Int
  ops : List SysOp
  sent : List Packet
  send_rc : Nat → Int
  malloc_ok : Bool
  states : List dnet_net_state
  state_create_ok : Bool

/-- The node record `struct dnet_node`, as far as the handlers read it. -/
structure dnet_node where
  id : List Nat
  addr : List Nat
  addr_len : Nat
  proto : Int
  sock_type : Int
  root : Option Path
  rootfd : Int
deriving DecidableEq, Repr

/-! ## System calls on the store -/

/-- The world after recording a system call. -/
def World.log (w : World) (op : SysOp) : World := { w with ops := w.ops ++ [op] }

/-- The world after a system call failed with `e`. -/
def World.fail (w : World) (e : Int) : World := { w with errno := e }

/-- The world with the regular file `path` holding `bytes`. -/
def World.put (w : World) (path : Path) (bytes : List Nat) : World :=
  { w with files := fun p => if p = path then some bytes else w.files p }

/-- The call `mkdirat(rootfd, dir, 0755)`: `EEXIST` when the name is taken. -/
def sys_mkdirat (w : World) (dir : Path) : Int × World :=
  if dir ∈ w.dirs ∨ (w.files dir).isSome then
    (-1, (w.log (SysOp.mkdirat dir)).fail EEXIST)
  else
    (0, { w.log (SysOp.mkdirat dir) with dirs := dir :: w.dirs })

/-- The call `openat(rootfd, dir, O_RDONLY)`: the descriptor is the name it resolved. -/
def sys_opendir (w : World) (dir : Path) : Option Path × World :=
  if dir ∈ w.dirs ∨ (w.files dir).isSome then
    (some dir, w.log (SysOp.opendir dir))
  else
    (none, (w.log (SysOp.opendir dir)).fail ENOENT)

/-- The call `openat(md, name, O_RDWR | O_CREAT | O_LARGEFILE [| O_APPEND], 0644)`. -/
def sys_openat_creat (w : World) (md name : Path) (append : Bool) : Option Path × World :=
  let path := md ++ '/' :: name
  let w1 := w.log (SysOp.openat path true append)
  if md ∉ w.dirs then (none, w1.fail ENOTDIR)
  else if path ∈ w.dirs then (none, w1.fail EISDIR)
  else match w.files path with
    | some _ => (some path, w1)
    | none => (some path, w1.put path [])

/-- The call `openat(rootfd, path, O_RDONLY, 0644)` on a regular file. -/
def sys_openat_rdonly (w : World) (path : Path) : Option Path × World :=
  match w.files path with
  | some _ => (some path, w.log (SysOp.openat path false false))
  | none => (none, (w.log (SysOp.openat path false false)).fail ENOENT)

/-- The bytes of a file after `data` is written at `pos`; a gap is zero-filled. -/
def pwrite_bytes (old : List Nat) (pos : Nat) (data : List Nat) : List Nat :=
  old.take pos ++ List.replicate (pos - old.length) 0 ++ data ++ old.drop (pos + data.length)

/-- The call `pwrite(fd, buf, count, offset)`; `append` is the descriptor's `O_APPEND`,
under which the kernel writes at the end of the file whatever the offset.  A negative
`off_t` (a 64-bit offset with the top bit set) is `EINVAL`. -/
def sys_pwrite (w : World) (fd : Path) (append : Bool) (buf : List Nat) (count offset : Nat) :
    Int × World :=
  if 9223372036854775808 ≤ offset then
    (-1, (w.log (SysOp.pwrite fd offset count)).fail EINVAL)
  else
    let old := (w.files fd).getD []
    let pos := if append then old.length else offset
    ((count : Int), (w.log (SysOp.pwrite fd offset count)).put fd
      (pwrite_bytes old pos (buf.take count)))

/-- The call `write(fd, buf, count)` on a descriptor opened with `O_APPEND`. -/
def sys_write (w : World) (fd : Path) (buf : List Nat) (count : Nat) : Int × World :=
  ((count : Int), (w.log (SysOp.write fd count)).put fd
    ((w.files fd).getD [] ++ buf.take count))

/-- The call `fstat(fd, &st)`: the status and `st.st_size`. -/
def sys_fstat (w : World) (fd : Path) : Int × Nat × World :=
  (0, ((w.files fd).getD []).length, w.log (SysOp.fstat fd))

/-- The assignment of an `ssize_t` result to `int err`. -/
def int_of_ssize (r : Int) : Int := to_s32 (to_u32 r)

/-! ## Transport -/

/-- Modelled from the spec: `dnet_send` (net.c) is not in src.  The frame is handed to the
transport, which answers with its status. -/
def dnet_send (w : World) (p : Packet) : Int × World :=
  (w.send_rc w.sent.length, { w with sent := w.sent ++ [p] })

/-- Modelled from the spec: `dnet_sendfile_data` (net.c) is not in src; §4.E: the
descriptor is handed to the kernel together with the pre-built header, so the frame is the
header followed by the `size` bytes of the file at `offset`. -/
def dnet_sendfile_data (w : World) (fd : Path) (offset size : Nat) (header : Packet) :
    Int × World :=
  dnet_send w { header with data := (((w.files fd).getD []).drop offset).take size }

/-! ## Object paths -/

/-- One lowercase hexadecimal digit. -/
def hex_digit (n : Nat) : Char :=
  if n < 10 then Char.ofNat (48 + n) else Char.ofNat (87 + n)

/-- The conversion `%02x` of an `unsigned char`. -/
def fmt_02x (b : Nat) : List Char := [hex_digit (b / 16 % 16), hex_digit (b % 16)]

/-- Modelled from the spec: `dnet_dump_id` is not in src; §4.E: `H = hex(I)`, two lowercase
digits per byte. -/
def dnet_dump_id : List Nat → List Char
  | [] => []
  | b :: bs => fmt_02x b ++ dnet_dump_id bs

/-- Modelled from the spec: `DNET_HISTORY_SUFFIX` is not in src; §4.E names the log
`H.history`. -/
def DNET_HISTORY_SUFFIX : List Char := ['.', 'h', 'i', 's', 't', 'o', 'r', 'y']

/-- The directory name `dnet_cmd_write` prints into `char dir[3]` (dnet.c:298). -/
def write_dir (id : List Nat) : Path := (fmt_02x (id.headD 0)).take 2

/-- The file name `dnet_cmd_write` prints into `char file[DNET_ID_SIZE * 2 + 1]`
(dnet.c:318). -/
def write_file (abi : Abi) (id : List Nat) : Path :=
  (dnet_dump_id id).take (abi.DNET_ID_SIZE * 2)

/-- The name `dnet_update_history` prints into its buffer of
`DNET_ID_SIZE*2+1 + sizeof(DNET_HISTORY_SUFFIX) + 5` characters (dnet.c:236). -/
def history_file (abi : Abi) (id : List Nat) (tmp : Bool) : Path :=
  (dnet_dump_id id ++ DNET_HISTORY_SUFFIX
    ++ (if tmp then ['.', 't', 'm', 'p'] else [])).take (abi.DNET_ID_SIZE * 2 + 1 + 9 + 5 - 1)

/-- The path `dnet_cmd_read` prints into `char file[DNET_ID_SIZE * 2 + 1 + 4]`
(dnet.c:390). -/
def read_file (abi : Abi) (id : List Nat) : Path :=
  (fmt_02x (id.headD 0) ++ '/' :: dnet_dump_id id).take (abi.DNET_ID_SIZE * 2 + 1 + 4 - 1)

/-! ## Object I/O -/

/-- The function `dnet_update_history` (dnet.c:231): append `*io`, as it stands in memory,
to the history log of `id` in the directory `md`. -/
def dnet_update_history (abi : Abi) (w : World) (md : Path) (id : List Nat)
    (io : dnet_io_attr) (tmp : Bool) : Int × World :=
  let o := sys_openat_creat w md (history_file abi id tmp) true
  match o.1 with
  | none => (-o.2.errno, o.2)
  | some fd =>
    let r := sys_write o.2 fd (store_dnet_io_attr abi io) (sizeof_dnet_io_attr abi)
    if int_of_ssize r.1 ≤ 0 then (-r.2.errno, r.2) else (0, r.2)

/-- The tail of `dnet_cmd_write` (dnet.c:331-355): `pwrite` the body to the data file
`dd`, then, under `UPDATE`, log the `io_attr` in the directory `md`. -/
def write_io (abi : Abi) (cmd : dnet_cmd) (io : dnet_io_attr) (body : List Nat)
    (md dd : Path) (append : Bool) (w : World) : Int × World :=
  let r := sys_pwrite w dd append body io.size io.offset
  if int_of_ssize r.1 ≤ 0 then (-r.2.errno, r.2)
  else if io.flags &&& DNET_IO_FLAGS_UPDATE ≠ 0 then
    let h := dnet_update_history abi r.2 md cmd.id io false
    if h.1 ≠ 0 then (h.1, h.2) else (0, h.2)
  else (0, r.2)

/-- The middle of `dnet_cmd_write` (dnet.c:298-329): make and open the directory, open
the data file, then `write_io`. -/
def write_open (abi : Abi) (cmd : dnet_cmd) (io : dnet_io_attr) (body : List Nat)
    (w : World) : Int × World :=
  let dir := write_dir cmd.id
  let m := sys_mkdirat w dir
  if m.1 < 0 ∧ m.2.errno ≠ EEXIST then (-m.2.errno, m.2)
  else
    let d := sys_opendir m.2 dir
    match d.1 with
    | none => (-d.2.errno, d.2)
    | some md =>
      let file := write_file abi cmd.id
      let append := decide (io.flags &&& DNET_IO_FLAGS_APPEND ≠ 0)
      let f := sys_openat_creat d.2 md file append
      match f.1 with
      | none => (-f.2.errno, f.2)
      | some dd => write_io abi cmd io body md dd append f.2

/-- The handler `dnet_cmd_write` (dnet.c:261). `data` is the attribute body: the
`io_attr` in wire order followed by the bytes to store. -/
def dnet_cmd_write (abi : Abi) (n : dnet_node) (cmd : dnet_cmd) (attr : dnet_attr)
    (data : List Nat) (w : World) : Int × World :=
  if attr.size ≤ sizeof_dnet_io_attr abi then (-EINVAL, w)
  else
    let io := dnet_convert_io_attr abi (load_dnet_io_attr abi data)
    let body := data.drop (sizeof_dnet_io_attr abi)
    if io.size ≠ attr.size - sizeof_dnet_io_attr abi ∨ io.size > cmd.size then (-EINVAL, w)
    else match n.root with
    | none => (-EINVAL, w)
    | some _ => write_open abi cmd io body w

/-- One WRITE as the dispatcher hands it to `dnet_cmd_write`. -/
structure WriteReq where
  cmd : dnet_cmd
  attr : dnet_attr
  data : List Nat

/-- The `io_attr` of a request as the handler reads it, after `dnet_convert_io_attr`. -/
def WriteReq.io (abi : Abi) (r : WriteReq) : dnet_io_attr :=
  dnet_convert_io_attr abi (load_dnet_io_attr abi r.data)

/-- Successive WRITE commands, in processing order: the statuses and the final world. -/
def write_all (abi : Abi) (n : dnet_node) : List WriteReq → World → List Int × World
  | [], w => ([], w)
  | r :: rs, w =>
    ((dnet_cmd_write abi n r.cmd r.attr r.data w).1
        :: (write_all abi n rs (dnet_cmd_write abi n r.cmd r.attr r.data w).2).1,
      (write_all abi n rs (dnet_cmd_write abi n r.cmd r.attr r.data w).2).2)

/-- The `sizeof(struct dnet_io_attr)` bytes `write(fd, io, ...)` takes from an `io_attr`
in host memory. -/
def history_record (abi : Abi) (io : dnet_io_attr) : List Nat :=
  (store_dnet_io_attr abi io).take (sizeof_dnet_io_attr abi)

/-- The records of the requests, one per request, back to back in processing order. -/
def history_records (abi : Abi) : List WriteReq → List Nat
  | [] => []
  | r :: rs => history_record abi (r.io abi) ++ history_records abi rs

/-- The reply header of one chunk of `dnet_cmd_read`, before the converters run. -/
def read_reply_cmd (abi : Abi) (cmd : dnet_cmd) (io : dnet_io_attr) (size : Nat) : dnet_cmd :=
  { id := io.id
    flags := DNET_FLAGS_MORE
    status := 0
    size := (sizeof_dnet_attr + sizeof_dnet_io_attr abi + size) % 18446744073709551616
    trans := cmd.trans ||| DNET_TRANS_REPLY }

/-- The attribute header of one chunk of `dnet_cmd_read`, before the converters run. -/
def read_reply_attr (abi : Abi) (size : Nat) : dnet_attr :=
  { cmd := DNET_CMD_READ
    size := (sizeof_dnet_io_attr abi + size) % 4294967296
    flags := 0 }

/-- The IO attribute of one chunk of `dnet_cmd_read`, before the converters run. -/
def read_reply_io (io : dnet_io_attr) (offset size : Nat) : dnet_io_attr :=
  { id := io.id, offset := offset, size := size, flags := 0 }

/-- The headers of one chunk of `dnet_cmd_read` as passed to `dnet_sendfile_data`, after
the three converters ran (dnet.c:450-452). -/
def read_reply (abi : Abi) (cmd : dnet_cmd) (io : dnet_io_attr) (offset size : Nat) : Packet :=
  { cmd := dnet_convert_cmd abi (read_reply_cmd abi cmd io size)
    attr := some (dnet_convert_attr abi (read_reply_attr abi size))
    io := some (dnet_convert_io_attr abi (read_reply_io io offset size))
    addr := none
    data := [] }

/-- The frame that results when `dnet_sendfile_data` is given the headers of a chunk and
the `size` bytes at `offset` of a file holding `content`. -/
def read_frame (abi : Abi) (cmd : dnet_cmd) (io : dnet_io_attr) (content : List Nat)
    (offset size : Nat) : Packet :=
  { read_reply abi cmd io offset size with data := (content.drop offset).take size }

/-- The size of the next chunk (dnet.c:425-427). -/
def read_chunk_size (abi : Abi) (total_size : Nat) : Nat :=
  if total_size > abi.DNET_MAX_READ_TRANS_SIZE then abi.DNET_MAX_READ_TRANS_SIZE
  else total_size

/-- The loop `while (total_size)` of `dnet_cmd_read` (dnet.c:424), one iteration per unit
of fuel; `none` when the fuel runs out before the loop ends. -/
def dnet_cmd_read_loop (abi : Abi) (cmd : dnet_cmd) (io : dnet_io_attr) (dd : Path) :
    Nat → Nat → Nat → World → Option (Int × World)
  | 0, total_size, _, w => if total_size = 0 then some (0, w) else none
  | fuel + 1, total_size, offset, w =>
    if total_size = 0 then some (0, w)
    else
      let size := read_chunk_size abi total_size
      let r := dnet_sendfile_data w dd offset size (read_reply abi cmd io offset size)
      if r.1 ≠ 0 then some (r.1, r.2)
      else dnet_cmd_read_loop abi cmd io dd fuel (total_size - size)
        ((offset + size) % 18446744073709551616) r.2

/-- The length to serve (dnet.c:400-412): `io->size`, or the size of the file when that
is zero; with the status of the `fstat`. -/
def read_stat (io : dnet_io_attr) (w : World) (dd : Path) : Int × Nat × World :=
  if io.size = 0 then sys_fstat w dd else (0, io.size, w)

/-- The handler `dnet_cmd_read` (dnet.c:365). `data` is the attribute body: one `io_attr`
in wire order.  The chunk loop is run for `total_size` iterations at most, which it never
exceeds when the chunk limit is positive; the result is `none` when it has not ended by
then (a zero chunk limit never advances). -/
def dnet_cmd_read (abi : Abi) (cmd : dnet_cmd) (attr : dnet_attr)
    (data : List Nat) (w : World) : Option (Int × World) :=
  if attr.size ≠ sizeof_dnet_io_attr abi then some (-EINVAL, w)
  else
    let io := dnet_convert_io_attr abi (load_dnet_io_attr abi data)
    let o := sys_openat_rdonly w (read_file abi io.id)
    match o.1 with
    | none => some (-o.2.errno, o.2)
    | some dd =>
      let st := read_stat io o.2 dd
      if st.1 ≠ 0 then some (-st.2.2.errno, st.2.2)
      else if st.2.2.malloc_ok = false then some (-ENOMEM, st.2.2)
      else dnet_cmd_read_loop abi cmd io dd st.2.1 st.2.1 io.offset st.2.2

/-- The size of chunk `k` when `T` bytes are served in chunks of at most the limit. -/
def spec_chunk_size (abi : Abi) (T k : Nat) : Nat :=
  min abi.DNET_MAX_READ_TRANS_SIZE (T - k * abi.DNET_MAX_READ_TRANS_SIZE)

/-- The number of chunks when `T` bytes are served: `T` over the limit, rounded up. -/
def spec_chunk_count (abi : Abi) (T : Nat) : Nat :=
  (T + abi.DNET_MAX_READ_TRANS_SIZE - 1) / abi.DNET_MAX_READ_TRANS_SIZE

/-- The `k`-th reply frame of a read of `T` bytes from offset `o` of an object `id` holding
`content`, as the specification words it: the wire form of a command header that counts
the attribute header and the attribute body, of an attribute header that counts the
`io_attr` and the chunk, of an `io_attr` with the chunk's offset and size; then the
chunk. -/
def spec_read_frame (abi : Abi) (cmd : dnet_cmd) (id content : List Nat) (o T k : Nat) :
    Packet :=
  { cmd := dnet_convert_cmd abi
      { id := id
        flags := DNET_FLAGS_MORE
        status := 0
        size := sizeof_dnet_attr + (sizeof_dnet_io_attr abi + spec_chunk_size abi T k)
        trans := cmd.trans ||| DNET_TRANS_REPLY }
    attr := some (dnet_convert_attr abi
      { cmd := DNET_CMD_READ
        size := sizeof_dnet_io_attr abi + spec_chunk_size abi T k
        flags := 0 })
    io := some (dnet_convert_io_attr abi
      { id := id
        offset := o + k * abi.DNET_MAX_READ_TRANS_SIZE
        size := spec_chunk_size abi T k
        flags := 0 })
    addr := none
    data := (content.drop (o + k * abi.DNET_MAX_READ_TRANS_SIZE)).take (spec_chunk_size abi T k) }

/-- The payload bytes of a run of frames, in emission order. -/
def concat_data : List Packet → List Nat
  | [] => []
  | p :: ps => p.data ++ concat_data ps

/-! ## Peer table -/

/-- What the handlers use of the other translation units, none of which is in src:
`dnet_state_search` (the peer responsible for an id, if any), `dnet_socket_create_addr`
(a connected socket or a negative errno) and the `LIST` handler `dnet_cmd_list`. -/
structure Ext where
  dnet_state_search : List Nat → Option dnet_net_state
  dnet_socket_create_addr : dnet_addr_attr → Int
  dnet_cmd_list : dnet_cmd → World → Int × World

/-- Modelled from the spec: `dnet_state_create` is not in src; §4.C: it allocates a peer
state for `(oid, addr, fd)` and inserts it into the node's peer list, or yields no state. -/
def dnet_state_create (w : World) (id addr : List Nat) (addr_len : Nat) (s : Int) :
    Option dnet_net_state × World :=
  if w.state_create_ok then
    (some { id := id, addr := addr.take addr_len, addr_len := addr_len, s := s },
      { w with states := w.states ++
          [{ id := id, addr := addr.take addr_len, addr_len := addr_len, s := s }] })
  else (none, w)

/-- The effect of `memcpy(dst, src, len)` on a zeroed buffer of `cap` bytes. -/
def memcpy_zeroed (cap : Nat) (src : List Nat) (len : Nat) : List Nat :=
  src.take len ++ List.replicate (cap - (src.take len).length) 0

/-- The bytes of a `struct dnet_addr_attr` in host memory. -/
def store_dnet_addr_attr (abi : Abi) (a : dnet_addr_attr) : List Nat :=
  a.addr ++ abi.store 4 a.addr_len ++ abi.store 4 (to_u32 a.sock_type)
    ++ abi.store 4 (to_u32 a.proto) ++ abi.store 2 a.family

/-- The frame made of one `struct dnet_addr_cmd`. -/
def Packet.of_addr_cmd (l : dnet_addr_cmd) : Packet :=
  { cmd := l.cmd, attr := some l.a, io := none, addr := some l.addr, data := [] }

/-! ## Lookup, reverse lookup, join -/

/-- The handler `dnet_cmd_lookup` (dnet.c:117). `orig` is the state of the connection the
command came in on. -/
def dnet_cmd_lookup (abi : Abi) (ext : Ext) (n : dnet_node) (orig : dnet_net_state)
    (cmd : dnet_cmd) (w : World) : Int × World :=
  let st := (ext.dnet_state_search cmd.id).getD orig
  let l : dnet_addr_cmd :=
    { cmd := { id := st.id
               flags := 0
               status := 0
               size := sizeof_dnet_addr_cmd abi - sizeof_dnet_cmd abi
               trans := 0 ||| DNET_TRANS_REPLY }
      a := { cmd := DNET_CMD_LOOKUP
             size := sizeof_dnet_addr_cmd abi - sizeof_dnet_cmd abi - sizeof_dnet_attr
             flags := 0 }
      addr := { addr := memcpy_zeroed abi.SOCKADDR_SIZE st.addr st.addr_len
                addr_len := st.addr_len
                sock_type := n.sock_type
                proto := n.proto
                family := 0 } }
  dnet_send w (Packet.of_addr_cmd (dnet_convert_addr_cmd abi l))

/-- The reply `dnet_cmd_reverse_lookup` assembles, before the converter runs. -/
def reverse_lookup_reply (abi : Abi) (n : dnet_node) (cmd : dnet_cmd) : dnet_addr_cmd :=
  { cmd := { id := n.id
             flags := 0
             status := 0
             size := sizeof_dnet_addr_cmd abi - sizeof_dnet_cmd abi
             trans := cmd.trans ||| DNET_TRANS_REPLY }
    a := { cmd := DNET_CMD_REVERSE_LOOKUP
           size := sizeof_dnet_addr_cmd abi - sizeof_dnet_cmd abi - sizeof_dnet_attr
           flags := 0 }
    addr := { addr := memcpy_zeroed abi.SOCKADDR_SIZE n.addr n.addr_len
              addr_len := n.addr_len
              sock_type := n.sock_type
              proto := n.proto
              family := 0 } }

/-- The handler `dnet_cmd_reverse_lookup` (dnet.c:154). -/
def dnet_cmd_reverse_lookup (abi : Abi) (n : dnet_node) (cmd : dnet_cmd) (w : World) :
    Int × World :=
  dnet_send w (Packet.of_addr_cmd (dnet_convert_addr_cmd abi (reverse_lookup_reply abi n cmd)))

/-- The handler `dnet_cmd_join_client` (dnet.c:184).  It converts the address attribute
where it lies, so the buffer is part of the result.  The error path of the source logs
through a state pointer that is null or unset; the log is not modelled. -/
def dnet_cmd_join_client (abi : Abi) (ext : Ext) (cmd : dnet_cmd) (data : List Nat)
    (w : World) : Int × World × List Nat :=
  let a := dnet_convert_addr_attr abi (load_dnet_addr_attr abi data)
  let data1 := store_dnet_addr_attr abi a ++ data.drop (sizeof_dnet_addr_attr abi)
  let s := ext.dnet_socket_create_addr a
  if s < 0 then (s, w, data1)
  else
    let c := dnet_state_create w cmd.id a.addr a.addr_len s
    match c.1 with
    | none => (-EINVAL, c.2.log (SysOp.close s), data1)
    | some _ => (0, c.2, data1)

/-! ## Dispatcher -/

/-- The `switch (a->cmd)` of `dnet_process_cmd` (dnet.c:511): status, world and the
buffer after the handler; `none` when the read handler does not end. -/
def dnet_process_switch (abi : Abi) (ext : Ext) (n : dnet_node) (st : dnet_net_state)
    (cmd : dnet_cmd) (a : dnet_attr) (data : List Nat) (w : World) :
    Option (Int × World × List Nat) :=
  if a.cmd = DNET_CMD_LOOKUP then
    some ((dnet_cmd_lookup abi ext n st cmd w).1, (dnet_cmd_lookup abi ext n st cmd w).2, data)
  else if a.cmd = DNET_CMD_REVERSE_LOOKUP then
    some ((dnet_cmd_reverse_lookup abi n cmd w).1, (dnet_cmd_reverse_lookup abi n cmd w).2, data)
  else if a.cmd = DNET_CMD_JOIN then
    some (dnet_cmd_join_client abi ext cmd data w)
  else if a.cmd = DNET_CMD_WRITE then
    some ((dnet_cmd_write abi n cmd a data w).1, (dnet_cmd_write abi n cmd a data w).2, data)
  else if a.cmd = DNET_CMD_READ then
    (dnet_cmd_read abi cmd a data w).map (fun r => (r.1, r.2, data))
  else if a.cmd = DNET_CMD_LIST then
    some ((ext.dnet_cmd_list cmd w).1, (ext.dnet_cmd_list cmd w).2, data)
  else some (-EPROTO, w, data)

/-- How one pass through the body of `while (size)` in `dnet_process_cmd` ends. `done` is
a `break` with the error; `next` falls through to the next pass with the bytes left.  An
attribute that got as far as the `switch` leaves its command and status, as the
"completed cmd" line of the source logs them. -/
inductive Pass where
  | done (err : Int) (w : World) (completed : List (Nat × Int))
  | next (size : Nat) (data : List Nat) (w : World) (completed : Nat × Int)

/-- One pass through the body of `while (size)` in `dnet_process_cmd` (dnet.c:484-550),
entered with `size` bytes left at `data`; `none` when the read handler does not end. -/
def dnet_process_pass (abi : Abi) (ext : Ext) (n : dnet_node) (st : dnet_net_state)
    (cmd : dnet_cmd) (size : Nat) (data : List Nat) (w : World) : Option Pass :=
  let a := dnet_convert_attr abi (load_dnet_attr abi data)
  let sz := a.size % 4294967296
  if size < sizeof_dnet_attr then some (Pass.done (-EPROTO) w [])
  else
    let body := data.drop sizeof_dnet_attr
    let left := size - sizeof_dnet_attr
    if left < a.size then some (Pass.done (-EPROTO) w [])
    else
      match dnet_process_switch abi ext n st cmd a body w with
      | none => none
      | some r =>
        if r.1 ≠ 0 then some (Pass.done r.1 r.2.1 [(a.cmd, r.1)])
        else if left < sz then some (Pass.done (-EPROTO) r.2.1 [(a.cmd, r.1)])
        else some (Pass.next (left - sz) (r.2.2.drop sz) r.2.1 (a.cmd, r.1))

/-- The loop `while (size)` of `dnet_process_cmd`, one pass per unit of fuel: the error,
the world and the attributes that reached the `switch`, each with its status. -/
def dnet_process_loop (abi : Abi) (ext : Ext) (n : dnet_node) (st : dnet_net_state)
    (cmd : dnet_cmd) : Nat → Nat → List Nat → World → Option (Int × World × List (Nat × Int))
  | 0, size, _, w => if size = 0 then some (0, w, []) else none
  | fuel + 1, size, data, w =>
    if size = 0 then some (0, w, [])
    else
      match dnet_process_pass abi ext n st cmd size data w with
      | none => none
      | some (Pass.done err w1 completed) => some (err, w1, completed)
      | some (Pass.next size1 data1 w1 entry) =>
        (dnet_process_loop abi ext n st cmd fuel size1 data1 w1).map
          (fun r => (r.1, r.2.1, entry :: r.2.2))

/-- The state of the parse once `k` attributes have been dispatched, each with status 0,
and the loop is about to start its next pass: the bytes left, the buffer position, the
world, and what the `k` attributes left in the log.  `none` when the parse does not get
that far. -/
def dnet_process_upto (abi : Abi) (ext : Ext) (n : dnet_node) (st : dnet_net_state)
    (cmd : dnet_cmd) :
    Nat → Nat → List Nat → World → Option (Nat × List Nat × World × List (Nat × Int))
  | 0, size, data, w => some (size, data, w, [])
  | k + 1, size, data, w =>
    if size = 0 then none
    else
      match dnet_process_pass abi ext n st cmd size data w with
      | some (Pass.next size1 data1 w1 entry) =>
        (dnet_process_upto abi ext n st cmd k size1 data1 w1).map
          (fun r => (r.1, r.2.1, r.2.2.1, entry :: r.2.2.2))
      | _ => none

/-- The acknowledgement `dnet_process_cmd` assembles, before the converter runs. -/
def ack_cmd (cmd : dnet_cmd) (err : Int) : dnet_cmd :=
  { id := cmd.id
    flags := cmd.flags
    status := err
    size := 0
    trans := cmd.trans ||| DNET_TRANS_REPLY }

/-- The dispatcher `dnet_process_cmd` (dnet.c:478).  Every pass of the loop consumes an
attribute header, so `cmd.size` passes are never exceeded.  The result is the returned
error, the world, and the attributes that reached a handler with their statuses; `none`
when the read handler does not end. -/
def dnet_process_cmd (abi : Abi) (ext : Ext) (n : dnet_node) (st : dnet_net_state)
    (cmd : dnet_cmd) (data : List Nat) (w : World) :
    Option (Int × World × List (Nat × Int)) :=
  match dnet_process_loop abi ext n st cmd cmd.size cmd.size data w with
  | none => none
  | some r =>
    if cmd.flags &&& DNET_FLAGS_NEED_ACK ≠ 0 then
      some (r.1, (dnet_send r.2.1
        { cmd := dnet_convert_cmd abi (ack_cmd cmd r.1)
          attr := none, io := none, addr := none, data := [] }).2, r.2.2)
    else some r

/-! ## The dispatcher as the specification words it -/

/-- The function `dnet_add_state` (dnet.c:571). `sock` is what `dnet_socket_create`
returned (not in src), `sa` the address it connected to (the source only logs it) and
`recv` what `dnet_recv` returned together with the `struct dnet_addr_cmd` it filled in.
The result is the status and the arguments of the `dnet_state_create` call, when it is
reached. -/
def dnet_add_state (abi : Abi) (sock : Int) (_sa : List Nat) (recv : Int × dnet_addr_cmd)
    (w : World) : Int × World × Option (List Nat × List Nat × Nat × Int) :=
  if sock < 0 then (sock, w, none)
  else
    let req : Packet :=
      { cmd := dnet_convert_cmd abi
          { id := List.replicate abi.DNET_ID_SIZE 0, flags := 0, status := 0
            size := sizeof_dnet_attr, trans := 0 }
        attr := some (dnet_convert_attr abi
          { cmd := DNET_CMD_REVERSE_LOOKUP, size := 0, flags := 0 })
        io := none, addr := none, data := [] }
    let s := dnet_send w req
    if s.1 ≠ 0 then (s.1, s.2.log (SysOp.close sock), none)
    else if recv.1 < 0 then (recv.1, s.2.log (SysOp.close sock), none)
    else
      let acmd := dnet_convert_addr_cmd abi recv.2
      let c := dnet_state_create s.2 acmd.cmd.id acmd.addr.addr acmd.addr.addr_len sock
      match c.1 with
      | none => (recv.1, c.2.log (SysOp.close sock),
          some (acmd.cmd.id, acmd.addr.addr, acmd.addr.addr_len, sock))
      | some _ => (0, c.2, some (acmd.cmd.id, acmd.addr.addr, acmd.addr.addr_len, sock))

/-! ## Client side: building an IO transaction -/

/-- The function `dnet_io_trans_create` (dnet.c:732): the `cmd + attr + io_attr` triple
that follows the transaction in memory, as left for sending. `first` is the state
`dnet_state_get_first` found and `insert` what `dnet_trans_insert` returned with the
number it assigned (neither is in src). -/
def dnet_io_trans_create (abi : Abi) (w : World) (id : List Nat) (attr_cmd : Nat)
    (ioattr : dnet_io_attr) (first : Option dnet_net_state) (insert : Int × Nat) :
    Option (dnet_cmd × dnet_attr × dnet_io_attr) :=
  let size := ioattr.size
  if w.malloc_ok = false then none
  else
    let cmd : dnet_cmd :=
      { id := id
        flags := DNET_FLAGS_NEED_ACK
        status := 0
        size := (sizeof_dnet_attr + sizeof_dnet_io_attr abi + size) % 18446744073709551616
        trans := insert.2 }
    let a : dnet_attr :=
      { cmd := attr_cmd
        size := (sizeof_dnet_io_attr abi + size) % 4294967296
        flags := 0 }
    match first with
    | none => none
    | some _ =>
      if insert.1 ≠ 0 then none
      else some (dnet_convert_cmd abi cmd, dnet_convert_attr abi a,
        dnet_convert_io_attr abi ioattr)

/-! ## Transforms -/

/-- A registered transform `struct dnet_transform`: private state and the three
callbacks.  `update` and `final` get the output buffer and its length and return them. -/
structure Transform (P : Type) where
  priv : P
  init : P → Int × P
  update : P → List Nat → List Nat → Nat → Int × P × List Nat × Nat
  final : P → List Nat → Nat → Int × P × List Nat × Nat

/-- The state of `dnet_transform` between two list entries: `err`, `*ppos`, the output
buffer and its length, the entries passed so far (their private state as left), and the
positions tried so far with the status each ended on. -/
structure TransformState (P : Type) where
  err : Int
  ppos : Int
  dst : List Nat
  dsize : Nat
  seen : List (Transform P)
  tried : List (Nat × Int)

/-- The three calls made on a transform that is tried (dnet.c:45-55): the status the
attempt ended on, the transform as left, the output buffer and its length. -/
def transform_try {P : Type} (t : Transform P) (src dst : List Nat) (dsize : Nat) :
    Int × Transform P × List Nat × Nat :=
  let i := t.init t.priv
  if i.1 ≠ 0 then (i.1, { t with priv := i.2 }, dst, dsize)
  else
    let u := t.update i.2 src dst dsize
    if u.1 ≠ 0 then (u.1, { t with priv := u.2.1 }, u.2.2.1, u.2.2.2)
    else
      let f := t.final u.2.1 u.2.2.1 u.2.2.2
      (f.1, { t with priv := f.2.1 }, f.2.2.1, f.2.2.2)

/-- The body of `list_for_each_entry` in `dnet_transform`, from list position `pos` on. -/
def dnet_transform_loop {P : Type} (src : List Nat) :
    List (Transform P) → Nat → TransformState P → TransformState P × List (Transform P)
  | [], _, s => (s, [])
  | t :: ts, pos, s =>
    if (pos : Int) = s.ppos then
      let r := transform_try t src s.dst s.dsize
      let s1 : TransformState P :=
        { err := r.1, ppos := (pos : Int) + 1, dst := r.2.2.1, dsize := r.2.2.2
          seen := s.seen ++ [r.2.1], tried := s.tried ++ [(pos, r.1)] }
      if r.1 = 0 then (s1, ts)
      else dnet_transform_loop src ts (pos + 1) s1
    else dnet_transform_loop src ts (pos + 1) { s with seen := s.seen ++ [t] }

/-- The function `dnet_transform` (dnet.c:35) on the registry `tlist`: the final state
and the entries the loop did not reach. -/
def dnet_transform {P : Type} (tlist : List (Transform P)) (src dst : List Nat) (dsize : Nat)
    (ppos : Int) : TransformState P × List (Transform P) :=
  dnet_transform_loop src tlist 0
    { err := 1, ppos := ppos, dst := dst, dsize := dsize, seen := [], tried := [] }

/-- Scenario 6: a transform that succeeds and yields the source as the id. -/
def transform_succeed : Transform Unit :=
  { priv := ()
    init := fun p => (0, p)
    update := fun p src _ _ => (0, p, src, src.length)
    final := fun p dst dsize => (0, p, dst, dsize) }

/-! ## The end-to-end scenarios of the specification (`ID_SIZE` = 4) -/

/-- An integer in network byte order. -/
def net_bytes (w v : Nat) : List Nat := (le_bytes w v).reverse

/-- An `io_attr` as it travels: the id, then offset, size and flags in network order. -/
def wire_io_attr (id : List Nat) (offset size flags : Nat) : List Nat :=
  id ++ net_bytes 8 offset ++ net_bytes 8 size ++ net_bytes 4 flags

/-- An attribute header as it travels. -/
def wire_attr (cmd size flags : Nat) : List Nat :=
  net_bytes 4 cmd ++ net_bytes 4 size ++ net_bytes 4 flags

/-- A little-endian node with 4-byte ids and the given chunk limit. -/
def scenario_abi (maxRead : Nat) : Abi := host_le 4 maxRead 16

/-- A node with a configured root. -/
def scenario_node : dnet_node :=
  { id := [9, 9, 9, 9], addr := [2, 0, 4, 210, 10, 0, 0, 2, 0, 0, 0, 0, 0, 0, 0, 0]
    addr_len := 16, proto := 6, sock_type := 1
    root := some ['r', 'o', 'o', 't'], rootfd := 3 }

/-- The other translation units of a node that knows no peer and lists nothing. -/
def scenario_ext : Ext :=
  { dnet_state_search := fun _ => none
    dnet_socket_create_addr := fun _ => 5
    dnet_cmd_list := fun _ w => (0, w) }

/-- The state of the connection a command comes in on. -/
def scenario_state : dnet_net_state :=
  { id := [7, 7, 7, 7], addr := [2, 0, 4, 211, 10, 0, 0, 3, 0, 0, 0, 0, 0, 0, 0, 0]
    addr_len := 16, s := 4 }

/-- An empty store behind a transport that accepts every frame. -/
def scenario_world : World :=
  { dirs := [], files := fun _ => none, errno := 0, ops := [], sent := []
    send_rc := fun _ => 0, malloc_ok := true, states := [], state_create_ok := true }

/-- The bytes of "hello". -/
def scenario_hello : List Nat := [104, 101, 108, 108, 111]

/-- Scenario 1: the header of a WRITE of "hello" to id `01 02 03 04`. -/
def scenario_write_cmd : dnet_cmd :=
  { id := [1, 2, 3, 4], flags := DNET_FLAGS_NEED_ACK, status := 0, size := 41, trans := 7 }

/-- Scenario 1: the attribute body of the WRITE, with the given `io_attr` flags. -/
def scenario_write_data (flags : Nat) : List Nat :=
  wire_io_attr [1, 2, 3, 4] 0 5 flags ++ scenario_hello

/-- Scenario 1: the attribute header of the WRITE, as converted by the dispatcher. -/
def scenario_write_attr : dnet_attr := { cmd := DNET_CMD_WRITE, size := 29, flags := 0 }

/-- Scenario 1: the header of the READ of id `01 02 03 04`. -/
def scenario_read_cmd : dnet_cmd :=
  { id := [1, 2, 3, 4], flags := DNET_FLAGS_NEED_ACK, status := 0, size := 36, trans := 8 }

/-- Scenario 1: the attribute body of the READ: offset 0, size 0. -/
def scenario_read_data : List Nat := wire_io_attr [1, 2, 3, 4] 0 0 0

/-- Scenario 1: the attribute header of the READ, as converted by the dispatcher. -/
def scenario_read_attr : dnet_attr := { cmd := DNET_CMD_READ, size := 24, flags := 0 }

/-- The store after the WRITE of scenario 1. -/
def scenario_written (maxRead : Nat) : World :=
  (dnet_cmd_write (scenario_abi maxRead) scenario_node scenario_write_cmd scenario_write_attr
    (scenario_write_data 0) scenario_world).2

/-- A command whose payload is a well-framed REVERSE_LOOKUP attribute followed by an
attribute header that declares 100 bytes where none is left. -/
def scenario_overrun_hdr : dnet_cmd :=
  { id := [1, 2, 3, 4], flags := DNET_FLAGS_NEED_ACK, status := 0, size := 24, trans := 9 }

/-- The payload of `scenario_overrun_hdr`. -/
def scenario_overrun_data : List Nat :=
  wire_attr DNET_CMD_REVERSE_LOOKUP 0 0 ++ wire_attr DNET_CMD_READ 100 0

/-- A character of the lowercase hexadecimal alphabet `[0-9a-f]`. -/
def is_lower_hex (c : Char) : Bool :=
  decide (('0' ≤ c ∧ c ≤ '9') ∨ ('a' ≤ c ∧ c ≤ 'f'))

/-- The root-relative path of the object file of an id (§6, OID addressing):
`hex(id[0]) + "/" + hex(id)`. -/
def spec_object_path (id : List Nat) : Path := fmt_02x (id.headD 0) ++ '/' :: dnet_dump_id id

/-- The root-relative path of the history log of an id (§4.E): `HH/H.history`. -/
def spec_history_path (id : List Nat) : Path :=
  fmt_02x (id.headD 0) ++ '/' :: (dnet_dump_id id ++ DNET_HISTORY_SUFFIX)

/-! ## The root directory of a node -/

/-- The function `dnet_setup_root` (dnet.c:697). `open_rc` is what
`open(n->root, O_RDONLY)` returns - a descriptor, or -1 with `errno` set to `open_errno` -
and `strdup` fails when allocations do. -/
def dnet_setup_root (n : dnet_node) (root : Path) (open_rc open_errno : Int) (w : World) :
    Int × dnet_node × World :=
  let w1 := if n.root.isSome then w.log (SysOp.close n.rootfd) else w
  if w1.malloc_ok = false then (-ENOMEM, { n with root := none }, w1)
  else if open_rc < 0 then
    (-open_errno, { n with root := some root, rootfd := 0 }, w1.fail open_errno)
  else (0, { n with root := some root, rootfd := open_rc }, w1)

/-! ## Client side: sending a file -/

/-- What the file system answers to `dnet_transform_file`: `sys_open file` is the result of
`open(file, O_RDONLY | O_LARGEFILE)` (a descriptor or -1) and `errno`; `sys_fstat fd` the
status of `fstat`, `errno` and `st_size`; `sys_mmap fd size offset` the mapping
`mmap(NULL, size, PROT_READ, MAP_SHARED, fd, offset)` returns, or `MAP_FAILED` (`none`),
and `errno`. -/
structure MapCalls where
  sys_open : Path → Int × Int
  sys_fstat : Int → Int × Int × Nat
  sys_mmap : Int → Nat → Nat → Option (List Nat) × Int

/-- The function `dnet_transform_file` (dnet.c:63) on the registry `tlist`: the status,
the registry as left, the output buffer with its length, and `*ppos`. -/
def dnet_transform_file {P : Type} (fsc : MapCalls) (tlist : List (Transform P)) (file : Path)
    (offset size : Nat) (dst : List Nat) (dsize : Nat) (ppos : Int) :
    Int × List (Transform P) × List Nat × Nat × Int :=
  let o := fsc.sys_open file
  if o.1 < 0 then (-o.2, tlist, dst, dsize, ppos)
  else
    let st := fsc.sys_fstat o.1
    if size = 0 ∧ st.1 < 0 then (-st.2.1, tlist, dst, dsize, ppos)
    else
      let size1 := if size = 0 then st.2.2 else size
      let m := fsc.sys_mmap o.1 size1 offset
      match m.1 with
      | none => (-m.2, tlist, dst, dsize, ppos)
      | some data =>
        let r := dnet_transform tlist data dst dsize ppos
        (r.1.err, r.1.seen ++ r.2, r.1.dst, r.1.dsize, r.1.ppos)

/-- The variables the loop of `dnet_write_file` changes: the registry, the cursor `pos`,
`err`, `error`, the two id buffers `file_id` and `io.id`, and the world. -/
structure WriteFile (P : Type) where
  tlist : List (Transform P)
  pos : Int
  err : Int
  error : Int
  file_id : List Nat
  io_id : List Nat
  w : World

/-- One iteration of the `while (1)` loop of `dnet_write_file` (dnet.c:826-859): whether
it left through `break`, and the variables as the iteration leaves them. `fd` is the open
file, `size` its `st_size`; `first` and `insert` are what `dnet_io_trans_create` gets from
`dnet_state_get_first` and `dnet_trans_insert`. -/
def dnet_write_file_pass {P : Type} (abi : Abi) (fsc : MapCalls)
    (first : Option dnet_net_state) (insert : Int × Nat) (file fd : Path) (size : Nat)
    (s : WriteFile P) : Bool × WriteFile P :=
  let r := dnet_transform s.tlist (file.map Char.toNat) s.file_id abi.DNET_ID_SIZE s.pos
  let s1 : WriteFile P :=
    { s with tlist := r.1.seen ++ r.2, pos := r.1.ppos, err := r.1.err, file_id := r.1.dst }
  if r.1.err ≠ 0 then (decide (r.1.err > 0), s1)
  else
    let f := dnet_transform_file fsc s1.tlist file 0 0 s1.io_id abi.DNET_ID_SIZE (s1.pos - 1)
    let s2 : WriteFile P :=
      { s1 with tlist := f.2.1, pos := f.2.2.2.2, err := f.1, io_id := f.2.2.1 }
    if f.1 ≠ 0 then (false, s2)
    else
      let io : dnet_io_attr :=
        { id := s2.io_id, offset := 0, size := size, flags := DNET_IO_FLAGS_UPDATE }
      match dnet_io_trans_create abi s2.w s2.file_id DNET_CMD_WRITE io first insert with
      | none => (false, s2)
      | some t =>
        let d := dnet_sendfile_data s2.w fd 0 size
          { cmd := t.1, attr := some t.2.1, io := some t.2.2, addr := none, data := [] }
        (false, { s2 with w := d.2, err := d.1, error := if d.1 = 0 then 0 else s2.error })

/-- The `while (1)` loop of `dnet_write_file`, one iteration per unit of fuel: the
variables at the `break`, or `none` when the fuel runs out before the loop ends. -/
def dnet_write_file_loop {P : Type} (abi : Abi) (fsc : MapCalls)
    (first : Option dnet_net_state) (insert : Int × Nat) (file fd : Path) (size : Nat) :
    Nat → WriteFile P → Option (WriteFile P)
  | 0, _ => none
  | fuel + 1, s =>
    let r := dnet_write_file_pass abi fsc first insert file fd size s
    if r.1 then some r.2 else dnet_write_file_loop abi fsc first insert file fd size fuel r.2

/-- The variables of `dnet_write_file` on entry to its loop; the two id buffers, which
the source leaves uninitialised, start zero-filled. -/
def write_file_start {P : Type} (abi : Abi) (tlist : List (Transform P)) (w : World) :
    WriteFile P :=
  { tlist := tlist, pos := 0, err := 0, error := -ENOENT
    file_id := List.replicate abi.DNET_ID_SIZE 0
    io_id := List.replicate abi.DNET_ID_SIZE 0, w := w }

/-- The function `dnet_write_file` (dnet.c:799) with its loop run on `fuel`: the status,
the world and the registry, or `none` when the loop has not ended by then. -/
def dnet_write_file {P : Type} (abi : Abi) (fsc : MapCalls) (first : Option dnet_net_state)
    (insert : Int × Nat) (fuel : Nat) (tlist : List (Transform P)) (file : Path) (w : World) :
    Option (Int × World × List (Transform P)) :=
  let o := sys_openat_rdonly w file
  match o.1 with
  | none => some (-o.2.errno, o.2, tlist)
  | some fd =>
    let st := sys_fstat o.2 fd
    if st.1 ≠ 0 then some (-st.2.2.errno, st.2.2, tlist)
    else
      (dnet_write_file_loop abi fsc first insert file fd st.2.1 fuel
        (write_file_start abi tlist st.2.2)).map (fun s => (s.error, s.w, s.tlist))

/-! ## Further scenarios -/

/-- The attribute body of a WRITE of "hello" with `UPDATE` whose `io_attr` names the id
`aa bb cc dd`; it is sent under the header `scenario_write_cmd`, whose id is
`01 02 03 04`. -/
def scenario_split_data : List Nat :=
  wire_io_attr [170, 187, 204, 221] 0 5 DNET_IO_FLAGS_UPDATE ++ scenario_hello

/-- The attribute body of a READ of the id `aa bb cc dd`: offset 0, size 0. -/
def scenario_split_read : List Nat := wire_io_attr [170, 187, 204, 221] 0 0 0

/-- The header of a LOOKUP request with transaction number 5. -/
def scenario_lookup_cmd : dnet_cmd :=
  { id := [1, 2, 3, 4], flags := DNET_FLAGS_NEED_ACK, status := 0, size := 12, trans := 5 }

/-- The file system's answers on an empty file: `open` and `fstat` succeed with
`st_size = 0`, and `mmap` of length 0 fails with `EINVAL`. -/
def empty_file_calls : MapCalls :=
  { sys_open := fun _ => (5, 0)
    sys_fstat := fun _ => (0, 0, 0)
    sys_mmap := fun _ size _ =>
      if size = 0 then (none, EINVAL) else (some (List.replicate size 0), 0) }

/-- A store that holds the empty file `f`. -/
def scenario_empty_file : World := scenario_world.put ['f'] []

/-- A world in which `dnet_state_create` yields no state. -/
def scenario_no_state : World := { scenario_world with state_create_ok := false }

/-- The reverse lookup reply of `scenario_node` as it arrives at an initiator. -/
def scenario_peer_reply : dnet_addr_cmd :=
  dnet_convert_addr_cmd (scenario_abi 3)
    (reverse_lookup_reply (scenario_abi 3) scenario_node scenario_lookup_cmd)

/-! ## Reading: the chunk loop -/

theorem dnet_sendfile_data_fst (w : World) (fd : Path) (o s : Nat) (h : Packet) :
    (dnet_sendfile_data w fd o s h).1 = w.send_rc w.sent.length := rfl

theorem dnet_sendfile_data_snd (w : World) (fd : Path) (o s : Nat) (h : Packet) :
    (dnet_sendfile_data w fd o s h).2 =
      { w with sent := w.sent ++ [{ h with data := (((w.files fd).getD []).drop o).take s }] } :=
  rfl

theorem dnet_sendfile_data_read (abi : Abi) (cmd : dnet_cmd) (io : dnet_io_attr) (w : World)
    (fd : Path) (o s : Nat) :
    (dnet_sendfile_data w fd o s (read_reply abi cmd io o s)).2 =
      { w with sent := w.sent ++ [read_frame abi cmd io ((w.files fd).getD []) o s] } :=
  rfl

theorem read_loop_zero (abi : Abi) (cmd : dnet_cmd) (io : dnet_io_attr) (dd : Path)
    (fuel off : Nat) (w : World) :
    dnet_cmd_read_loop abi cmd io dd fuel 0 off w = some (0, w) := by
  cases fuel <;> simp [dnet_cmd_read_loop]

theorem read_loop_succ (abi : Abi) (cmd : dnet_cmd) (io : dnet_io_attr) (dd : Path)
    (fuel total off : Nat) (w : World) (h : total ≠ 0) :
    dnet_cmd_read_loop abi cmd io dd (fuel + 1) total off w =
      if (dnet_sendfile_data w dd off (read_chunk_size abi total)
            (read_reply abi cmd io off (read_chunk_size abi total))).1 ≠ 0 then
        some (dnet_sendfile_data w dd off (read_chunk_size abi total)
            (read_reply abi cmd io off (read_chunk_size abi total)))
      else dnet_cmd_read_loop abi cmd io dd fuel (total - read_chunk_size abi total)
        ((off + read_chunk_size abi total) % 18446744073709551616)
        (dnet_sendfile_data w dd off (read_chunk_size abi total)
            (read_reply abi cmd io off (read_chunk_size abi total))).2 := by
  simp [dnet_cmd_read_loop, h]

theorem read_chunk_size_pos (abi : Abi) (total : Nat)
    (hM : 0 < abi.DNET_MAX_READ_TRANS_SIZE) (h : total ≠ 0) :
    1 ≤ read_chunk_size abi total ∧ read_chunk_size abi total ≤ total := by
  unfold read_chunk_size
  split <;> omega

/-- Whatever the transport answers, the chunk loop ends within `total` passes when the
chunk limit is positive, and every frame it hands over is the wire form of a header whose
flags are `MORE`. -/
theorem read_loop_flags (abi : Abi) (cmd : dnet_cmd) (io : dnet_io_attr) (dd : Path)
    (hM : 0 < abi.DNET_MAX_READ_TRANS_SIZE) :
    ∀ (fuel total off : Nat) (w : World), total ≤ fuel →
      ∃ r frames, dnet_cmd_read_loop abi cmd io dd fuel total off w = some r ∧
        r.2.sent = w.sent ++ frames ∧
        ∀ p ∈ frames, ∃ c : dnet_cmd, c.flags = DNET_FLAGS_MORE ∧
          p.cmd = dnet_convert_cmd abi c := by
  intro fuel
  induction fuel with
  | zero =>
    intro total off w h
    have h0 : total = 0 := by omega
    subst h0
    exact ⟨(0, w), [], read_loop_zero .., by simp, by simp⟩
  | succ fuel ih =>
    intro total off w h
    by_cases h0 : total = 0
    · subst h0
      exact ⟨(0, w), [], read_loop_zero .., by simp, by simp⟩
    · rw [read_loop_succ _ _ _ _ _ _ _ _ h0]
      have hc := read_chunk_size_pos abi total hM h0
      by_cases hs : (dnet_sendfile_data w dd off (read_chunk_size abi total)
            (read_reply abi cmd io off (read_chunk_size abi total))).1 ≠ 0
      · rw [if_pos hs]
        refine ⟨_, [_], rfl, by rw [dnet_sendfile_data_snd], ?_⟩
        intro p hp
        simp only [List.mem_singleton] at hp
        subst hp
        exact ⟨_, rfl, rfl⟩
      · rw [if_neg hs]
        obtain ⟨r, frames, hr, hsent, hf⟩ := ih (total - read_chunk_size abi total)
          ((off + read_chunk_size abi total) % 18446744073709551616)
          (dnet_sendfile_data w dd off (read_chunk_size abi total)
            (read_reply abi cmd io off (read_chunk_size abi total))).2 (by omega)
        refine ⟨r, ({ read_reply abi cmd io off (read_chunk_size abi total) with
          data := (((w.files dd).getD []).drop off).take (read_chunk_size abi total) } :
            Packet) :: frames, hr, ?_, ?_⟩
        · rw [hsent, dnet_sendfile_data_snd]
          simp
        · intro p hp
          rcases List.mem_cons.mp hp with hp | hp
          · subst hp
            exact ⟨_, rfl, rfl⟩
          · exact hf p hp

theorem sys_openat_rdonly_sent (w : World) (path : Path) :
    (sys_openat_rdonly w path).2.sent = w.sent := by
  unfold sys_openat_rdonly
  split <;> rfl

theorem read_stat_sent (io : dnet_io_attr) (w : World) (dd : Path) :
    (read_stat io w dd).2.2.sent = w.sent := by
  unfold read_stat
  split <;> rfl

/-- With a positive chunk limit `dnet_cmd_read` returns, and every frame it sent is the
wire form of a header whose flags are `MORE`. -/
theorem dnet_cmd_read_sent_flags (abi : Abi) (cmd : dnet_cmd) (attr : dnet_attr)
    (data : List Nat) (w : World) (hM : 0 < abi.DNET_MAX_READ_TRANS_SIZE) :
    ∃ r frames, dnet_cmd_read abi cmd attr data w = some r ∧
      r.2.sent = w.sent ++ frames ∧
      ∀ p ∈ frames, ∃ c : dnet_cmd, c.flags = DNET_FLAGS_MORE ∧
        p.cmd = dnet_convert_cmd abi c := by
  unfold dnet_cmd_read
  by_cases ha : attr.size ≠ sizeof_dnet_io_attr abi
  · rw [if_pos ha]
    exact ⟨_, [], rfl, by simp, by simp⟩
  · rw [if_neg ha]
    simp only []
    generalize hio : dnet_convert_io_attr abi (load_dnet_io_attr abi data) = io
    have hos := sys_openat_rdonly_sent w (read_file abi io.id)
    generalize sys_openat_rdonly w (read_file abi io.id) = o at hos
    cases ho : o.1 with
    | none => exact ⟨_, [], rfl, by simp [hos], by simp⟩
    | some dd =>
      simp only []
      have hst := read_stat_sent io o.2 dd
      generalize read_stat io o.2 dd = st at hst
      by_cases h1 : st.1 ≠ 0
      · rw [if_pos h1]
        exact ⟨_, [], rfl, by simp [hst, hos], by simp⟩
      · rw [if_neg h1]
        by_cases h2 : st.2.2.malloc_ok = false
        · rw [if_pos h2]
          exact ⟨_, [], rfl, by simp [hst, hos], by simp⟩
        · rw [if_neg h2]
          obtain ⟨r, frames, hr, hs, hf⟩ := read_loop_flags abi cmd io dd hM st.2.1 st.2.1
            io.offset st.2.2 (le_refl _)
          exact ⟨r, frames, hr, by rw [hs, hst, hos], hf⟩

/-! ### The frames of a read the transport accepts -/

theorem chunk_count_succ (M total : Nat) (hM : 0 < M) (h : total ≠ 0) :
    (total + M - 1) / M = (total - 1) / M + 1 := by
  have : total + M - 1 = (total - 1) + M := by omega
  rw [this, Nat.add_div_right _ hM]

theorem chunk_count_rest (abi : Abi) (total : Nat) (hM : 0 < abi.DNET_MAX_READ_TRANS_SIZE) :
    (total - read_chunk_size abi total + abi.DNET_MAX_READ_TRANS_SIZE - 1)
      / abi.DNET_MAX_READ_TRANS_SIZE = (total - 1) / abi.DNET_MAX_READ_TRANS_SIZE := by
  unfold read_chunk_size
  split
  · congr 1
    omega
  · rename_i hle
    have h1 : total - total + abi.DNET_MAX_READ_TRANS_SIZE - 1 < abi.DNET_MAX_READ_TRANS_SIZE := by
      omega
    have h2 : total - 1 < abi.DNET_MAX_READ_TRANS_SIZE := by omega
    rw [Nat.div_eq_of_lt h1, Nat.div_eq_of_lt h2]

/-- When the transport accepts every frame, the chunk loop ends with status 0 after
handing over one frame per chunk of at most the limit, at contiguous offsets. -/
theorem read_loop_frames (abi : Abi) (cmd : dnet_cmd) (io : dnet_io_attr) (dd : Path)
    (hM : 0 < abi.DNET_MAX_READ_TRANS_SIZE) :
    ∀ (fuel total off : Nat) (w : World), total ≤ fuel →
      off + total < 18446744073709551616 → (∀ k, w.send_rc k = 0) →
      dnet_cmd_read_loop abi cmd io dd fuel total off w = some (0, { w with sent := w.sent ++
        (List.range ((total + abi.DNET_MAX_READ_TRANS_SIZE - 1) / abi.DNET_MAX_READ_TRANS_SIZE)).map (fun k => read_frame abi cmd io ((w.files dd).getD []) (off + k * abi.DNET_MAX_READ_TRANS_SIZE) (min abi.DNET_MAX_READ_TRANS_SIZE (total - k * abi.DNET_MAX_READ_TRANS_SIZE))) }) := by
  intro fuel
  induction fuel with
  | zero =>
    intro total off w h _ _
    have h0 : total = 0 := by omega
    subst h0
    rw [read_loop_zero]
    have : (0 + abi.DNET_MAX_READ_TRANS_SIZE - 1) / abi.DNET_MAX_READ_TRANS_SIZE = 0 :=
      Nat.div_eq_of_lt (by omega)
    rw [this]
    simp
  | succ fuel ih =>
    intro total off w h hoff hsend
    by_cases h0 : total = 0
    · subst h0
      rw [read_loop_zero]
      have : (0 + abi.DNET_MAX_READ_TRANS_SIZE - 1) / abi.DNET_MAX_READ_TRANS_SIZE = 0 :=
        Nat.div_eq_of_lt (by omega)
      rw [this]
      simp
    · rw [read_loop_succ _ _ _ _ _ _ _ _ h0]
      have hc := read_chunk_size_pos abi total hM h0
      rw [dnet_sendfile_data_fst, hsend, if_neg (by simp), dnet_sendfile_data_read]
      have hmod : (off + read_chunk_size abi total) % 18446744073709551616
          = off + read_chunk_size abi total := Nat.mod_eq_of_lt (by omega)
      rw [hmod, ih (total - read_chunk_size abi total) (off + read_chunk_size abi total)
        { w with sent := w.sent ++
          [read_frame abi cmd io ((w.files dd).getD []) off (read_chunk_size abi total)] }
        (by omega) (by omega) hsend, chunk_count_rest abi total hM,
        chunk_count_succ _ total hM h0, List.range_succ_eq_map]
      simp only [List.map_cons, List.map_map, List.append_assoc, List.singleton_append,
        Nat.zero_mul, Nat.add_zero, Nat.sub_zero]
      have hmin : min abi.DNET_MAX_READ_TRANS_SIZE total = read_chunk_size abi total := by
        unfold read_chunk_size
        split <;> omega
      rw [hmin]
      congr 5
      apply List.map_congr_left
      intro k hk
      have hk' : k < (total - 1) / abi.DNET_MAX_READ_TRANS_SIZE := List.mem_range.mp hk
      have hbig : abi.DNET_MAX_READ_TRANS_SIZE < total := by
        by_contra hle
        have : (total - 1) / abi.DNET_MAX_READ_TRANS_SIZE = 0 := Nat.div_eq_of_lt (by omega)
        omega
      have hcs : read_chunk_size abi total = abi.DNET_MAX_READ_TRANS_SIZE := by
        unfold read_chunk_size
        rw [if_pos hbig]
      simp only [Function.comp, hcs]
      have e1 : off + abi.DNET_MAX_READ_TRANS_SIZE + k * abi.DNET_MAX_READ_TRANS_SIZE
          = off + (k + 1) * abi.DNET_MAX_READ_TRANS_SIZE := by
        rw [Nat.succ_mul]; omega
      have e2 : total - abi.DNET_MAX_READ_TRANS_SIZE - k * abi.DNET_MAX_READ_TRANS_SIZE
          = total - (k + 1) * abi.DNET_MAX_READ_TRANS_SIZE := by
        rw [Nat.succ_mul]; omega
      rw [e1, e2]

theorem chunk_count_covers (M T : Nat) (hM : 0 < M) : T ≤ (T + M - 1) / M * M := by
  have h1 := Nat.div_add_mod (T + M - 1) M
  have h2 := Nat.mod_lt (T + M - 1) hM
  rw [Nat.mul_comm] at h1
  omega

theorem chunk_index_lt (M T k : Nat) (h : k < (T + M - 1) / M) : k * M < T := by
  have h1 : (k + 1) * M ≤ T + M - 1 := (Nat.le_div_iff_mul_le (by
    rcases Nat.eq_zero_or_pos M with h0 | h0
    · subst h0; simp at h
    · exact h0)).mp h
  rw [Nat.succ_mul] at h1
  rcases Nat.eq_zero_or_pos M with h0 | h0
  · subst h0; simp at h
  · omega

theorem chunk_sizes_sum (M : Nat) :
    ∀ n T : Nat, T ≤ n * M → ((List.range n).map (fun k => min M (T - k * M))).sum = T := by
  intro n
  induction n with
  | zero => intro T h; simp at h; simp [h]
  | succ n ih =>
    intro T h
    rw [List.range_succ_eq_map, List.map_cons, List.map_map, List.sum_cons]
    have e : ((fun k => min M (T - k * M)) ∘ Nat.succ) = fun k => min M (T - M - k * M) := by
      funext k
      simp only [Function.comp, Nat.succ_mul]
      congr 1
      omega
    rw [e, ih (T - M) (by rw [Nat.succ_mul] at h; omega)]
    simp only [Nat.zero_mul, Nat.sub_zero]
    omega

theorem read_frame_eq_spec (abi : Abi) (cmd : dnet_cmd) (io : dnet_io_attr)
    (content : List Nat) (T k : Nat)
    (hfit : sizeof_dnet_io_attr abi + abi.DNET_MAX_READ_TRANS_SIZE < 4294967296) :
    read_frame abi cmd io content (io.offset + k * abi.DNET_MAX_READ_TRANS_SIZE)
        (min abi.DNET_MAX_READ_TRANS_SIZE (T - k * abi.DNET_MAX_READ_TRANS_SIZE))
      = spec_read_frame abi cmd io.id content io.offset T k := by
  have hle : min abi.DNET_MAX_READ_TRANS_SIZE (T - k * abi.DNET_MAX_READ_TRANS_SIZE)
      ≤ abi.DNET_MAX_READ_TRANS_SIZE := Nat.min_le_left _ _
  have h1 : (sizeof_dnet_io_attr abi
      + min abi.DNET_MAX_READ_TRANS_SIZE (T - k * abi.DNET_MAX_READ_TRANS_SIZE)) % 4294967296
      = sizeof_dnet_io_attr abi
        + min abi.DNET_MAX_READ_TRANS_SIZE (T - k * abi.DNET_MAX_READ_TRANS_SIZE) :=
    Nat.mod_eq_of_lt (by omega)
  have h2 : (sizeof_dnet_attr + sizeof_dnet_io_attr abi
      + min abi.DNET_MAX_READ_TRANS_SIZE (T - k * abi.DNET_MAX_READ_TRANS_SIZE))
        % 18446744073709551616
      = sizeof_dnet_attr + (sizeof_dnet_io_attr abi
        + min abi.DNET_MAX_READ_TRANS_SIZE (T - k * abi.DNET_MAX_READ_TRANS_SIZE)) := by
    rw [Nat.mod_eq_of_lt (by unfold sizeof_dnet_attr; omega)]
    omega
  simp only [read_frame, read_reply, read_reply_cmd, read_reply_attr, read_reply_io,
    spec_read_frame, spec_chunk_size, h1, h2]

/-- Claim C1 (as amended): when the chunk limit is positive `dnet_cmd_read` returns, and
every reply chunk it emitted - the final one included - is the wire form of a header whose
flags are exactly `MORE`; no chunk has `MORE` cleared. -/
theorem dnet_cmd_read_every_chunk_has_more (abi : Abi) (cmd : dnet_cmd) (attr : dnet_attr)
    (data : List Nat) (w : World) (hM : 0 < abi.DNET_MAX_READ_TRANS_SIZE) :
    ∃ r frames, dnet_cmd_read abi cmd attr data w = some r ∧
      r.2.sent = w.sent ++ frames ∧
      ∀ p ∈ frames, ∃ c : dnet_cmd, c.flags = DNET_FLAGS_MORE ∧
        p.cmd = dnet_convert_cmd abi c :=
  dnet_cmd_read_sent_flags abi cmd attr data w hM

theorem sys_openat_rdonly_found (w : World) (path : Path) (content : List Nat)
    (h : w.files path = some content) :
    sys_openat_rdonly w path = (some path, w.log (SysOp.openat path false false)) := by
  unfold sys_openat_rdonly
  rw [h]

theorem read_stat_total (io : dnet_io_attr) (w : World) (dd : Path) :
    read_stat io w dd =
      (0, (if io.size = 0 then ((w.files dd).getD []).length else io.size),
        if io.size = 0 then w.log (SysOp.fstat dd) else w) := by
  unfold read_stat sys_fstat
  split <;> rfl

/-- The run of a READ the transport accepts: status 0, and the world with one frame per
chunk appended to what was sent. -/
theorem dnet_cmd_read_run (abi : Abi) (cmd : dnet_cmd) (attr : dnet_attr)
    (data : List Nat) (w : World) (io : dnet_io_attr) (content : List Nat) (T : Nat)
    (hM : 0 < abi.DNET_MAX_READ_TRANS_SIZE)
    (hattr : attr.size = sizeof_dnet_io_attr abi)
    (hio : dnet_convert_io_attr abi (load_dnet_io_attr abi data) = io)
    (hfile : w.files (read_file abi io.id) = some content)
    (hT : T = if io.size = 0 then content.length else io.size)
    (hoff : io.offset + T < 9223372036854775808)
    (hmalloc : w.malloc_ok = true)
    (hsend : ∀ k, w.send_rc k = 0) :
    dnet_cmd_read abi cmd attr data w = some (0,
      { (if io.size = 0 then (w.log (SysOp.openat (read_file abi io.id) false false)).log
            (SysOp.fstat (read_file abi io.id))
          else w.log (SysOp.openat (read_file abi io.id) false false)) with
        sent := w.sent ++ (List.range (spec_chunk_count abi T)).map (fun k =>
          read_frame abi cmd io content (io.offset + k * abi.DNET_MAX_READ_TRANS_SIZE)
            (min abi.DNET_MAX_READ_TRANS_SIZE (T - k * abi.DNET_MAX_READ_TRANS_SIZE))) }) := by
  unfold dnet_cmd_read
  rw [if_neg (by simp [hattr])]
  simp only [hio, sys_openat_rdonly_found w _ content hfile, read_stat_total]
  have hlen : (((w.log (SysOp.openat (read_file abi io.id) false false)).files
      (read_file abi io.id)).getD []) = content := by
    simp [World.log, hfile]
  rw [hlen, ← hT]
  rw [if_neg (by simp), if_neg (by split <;> simp [World.log, hmalloc])]
  rw [read_loop_frames abi cmd io _ hM T T io.offset _ (le_refl _) (by omega)
    (by split <;> simpa [World.log] using hsend)]
  congr 2
  have hfiles : ((if io.size = 0 then
      (w.log (SysOp.openat (read_file abi io.id) false false)).log
        (SysOp.fstat (read_file abi io.id))
      else w.log (SysOp.openat (read_file abi io.id) false false)).files
        (read_file abi io.id)).getD [] = content := by
    split <;> simp [World.log, hfile]
  have hsent : (if io.size = 0 then
      (w.log (SysOp.openat (read_file abi io.id) false false)).log
        (SysOp.fstat (read_file abi io.id))
      else w.log (SysOp.openat (read_file abi io.id) false false)).sent = w.sent := by
    split <;> rfl
  rw [hfiles, hsent]
  rfl

/-- The chunks of a read, put back to back, are the `T` bytes of the file from the start
offset on. -/
theorem concat_read_frames (abi : Abi) (cmd : dnet_cmd) (io : dnet_io_attr)
    (content : List Nat) :
    ∀ n o T : Nat, T ≤ n * abi.DNET_MAX_READ_TRANS_SIZE →
      concat_data ((List.range n).map (fun k =>
        read_frame abi cmd io content (o + k * abi.DNET_MAX_READ_TRANS_SIZE)
          (min abi.DNET_MAX_READ_TRANS_SIZE (T - k * abi.DNET_MAX_READ_TRANS_SIZE))))
        = (content.drop o).take T := by
  intro n
  induction n with
  | zero =>
    intro o T h
    simp at h
    subst h
    simp [concat_data]
  | succ n ih =>
    intro o T h
    rw [List.range_succ_eq_map, List.map_cons, List.map_map]
    have e : ((fun k => read_frame abi cmd io content (o + k * abi.DNET_MAX_READ_TRANS_SIZE)
          (min abi.DNET_MAX_READ_TRANS_SIZE (T - k * abi.DNET_MAX_READ_TRANS_SIZE))) ∘ Nat.succ)
        = fun k => read_frame abi cmd io content
            (o + abi.DNET_MAX_READ_TRANS_SIZE + k * abi.DNET_MAX_READ_TRANS_SIZE)
            (min abi.DNET_MAX_READ_TRANS_SIZE
              (T - abi.DNET_MAX_READ_TRANS_SIZE - k * abi.DNET_MAX_READ_TRANS_SIZE)) := by
      funext k
      have e1 : o + (k + 1) * abi.DNET_MAX_READ_TRANS_SIZE
          = o + abi.DNET_MAX_READ_TRANS_SIZE + k * abi.DNET_MAX_READ_TRANS_SIZE := by
        rw [Nat.succ_mul]; omega
      have e2 : T - (k + 1) * abi.DNET_MAX_READ_TRANS_SIZE
          = T - abi.DNET_MAX_READ_TRANS_SIZE - k * abi.DNET_MAX_READ_TRANS_SIZE := by
        rw [Nat.succ_mul]; omega
      simp only [Function.comp, e1, e2]
    rw [e, concat_data, ih _ _ (by rw [Nat.succ_mul] at h; omega)]
    simp only [read_frame, Nat.zero_mul, Nat.add_zero, Nat.sub_zero]
    rcases Nat.lt_or_ge abi.DNET_MAX_READ_TRANS_SIZE T with hlt | hge
    · have hT : T = abi.DNET_MAX_READ_TRANS_SIZE + (T - abi.DNET_MAX_READ_TRANS_SIZE) := by
        omega
      rw [Nat.min_eq_left (Nat.le_of_lt hlt)]
      conv_rhs => rw [hT, List.take_add, List.drop_drop]
    · rw [Nat.min_eq_right hge, Nat.sub_eq_zero_of_le hge]
      simp

/-- Claim C2: a READ of `T` bytes from offset `o` (`T` is `io.size`, or the size of the
file when `io.size` is 0) that the transport accepts returns 0 after emitting exactly
`ceil(T / M)` frames; frame `k` carries offset `o + k*M` and size `min M (T - k*M)` with
`attr.size = sizeof(io_attr) + size` and `cmd.size = sizeof(attr) + attr.size`; every size
is between 1 and `M`, the sizes sum to `T`, and the offsets ascend contiguously. -/
theorem dnet_cmd_read_chunking (abi : Abi) (cmd : dnet_cmd) (attr : dnet_attr)
    (data : List Nat) (w : World) (io : dnet_io_attr) (content : List Nat) (T : Nat)
    (hM : 0 < abi.DNET_MAX_READ_TRANS_SIZE)
    (hfit : sizeof_dnet_io_attr abi + abi.DNET_MAX_READ_TRANS_SIZE < 4294967296)
    (hattr : attr.size = sizeof_dnet_io_attr abi)
    (hio : dnet_convert_io_attr abi (load_dnet_io_attr abi data) = io)
    (hfile : w.files (read_file abi io.id) = some content)
    (hT : T = if io.size = 0 then content.length else io.size)
    (hoff : io.offset + T < 9223372036854775808)
    (hmalloc : w.malloc_ok = true)
    (hsend : ∀ k, w.send_rc k = 0) :
    ∃ w1, dnet_cmd_read abi cmd attr data w = some (0, w1) ∧
      w1.sent = w.sent ++ (List.range (spec_chunk_count abi T)).map
        (spec_read_frame abi cmd io.id content io.offset T) ∧
      (∀ k, k < spec_chunk_count abi T →
        1 ≤ spec_chunk_size abi T k ∧ spec_chunk_size abi T k ≤ abi.DNET_MAX_READ_TRANS_SIZE) ∧
      ((List.range (spec_chunk_count abi T)).map (spec_chunk_size abi T)).sum = T ∧
      (∀ k, k + 1 < spec_chunk_count abi T →
        io.offset + k * abi.DNET_MAX_READ_TRANS_SIZE
          < io.offset + (k + 1) * abi.DNET_MAX_READ_TRANS_SIZE ∧
        io.offset + (k + 1) * abi.DNET_MAX_READ_TRANS_SIZE
          = io.offset + k * abi.DNET_MAX_READ_TRANS_SIZE + spec_chunk_size abi T k) := by
  refine ⟨_, dnet_cmd_read_run abi cmd attr data w io content T hM hattr hio hfile hT
    hoff hmalloc hsend, ?_, ?_, ?_, ?_⟩
  · simp only []
    congr 1
    apply List.map_congr_left
    intro k _
    exact read_frame_eq_spec abi cmd io content T k hfit
  · intro k hk
    have := chunk_index_lt _ _ _ hk
    unfold spec_chunk_size
    omega
  · exact chunk_sizes_sum _ _ _ (chunk_count_covers _ _ hM)
  · intro k hk
    have := chunk_index_lt _ _ _ hk
    unfold spec_chunk_size
    rw [Nat.succ_mul] at this ⊢
    omega

/-! ## Writing: paths -/

theorem fmt_02x_length (b : Nat) : (fmt_02x b).length = 2 := rfl

theorem dnet_dump_id_length (id : List Nat) : (dnet_dump_id id).length = 2 * id.length := by
  induction id with
  | nil => rfl
  | cons b bs ih => simp [dnet_dump_id, fmt_02x_length, ih]; omega

theorem write_dir_eq (id : List Nat) : write_dir id = fmt_02x (id.headD 0) := by
  unfold write_dir
  exact List.take_of_length_le (by simp [fmt_02x_length])

theorem write_file_eq (abi : Abi) (id : List Nat) (h : id.length = abi.DNET_ID_SIZE) :
    write_file abi id = dnet_dump_id id := by
  unfold write_file
  exact List.take_of_length_le (by rw [dnet_dump_id_length]; omega)

theorem history_file_eq (abi : Abi) (id : List Nat) (h : id.length = abi.DNET_ID_SIZE) :
    history_file abi id false = dnet_dump_id id ++ DNET_HISTORY_SUFFIX := by
  unfold history_file
  simp only [Bool.false_eq_true, if_false, List.append_nil]
  exact List.take_of_length_le (by
    simp [dnet_dump_id_length, DNET_HISTORY_SUFFIX]; omega)

theorem read_file_eq (abi : Abi) (id : List Nat) (h : id.length = abi.DNET_ID_SIZE) :
    read_file abi id = write_dir id ++ '/' :: write_file abi id := by
  rw [write_dir_eq, write_file_eq abi id h]
  unfold read_file
  exact List.take_of_length_le (by
    simp [dnet_dump_id_length, fmt_02x_length]; omega)

theorem history_path_ne (abi : Abi) (id : List Nat) (h : id.length = abi.DNET_ID_SIZE) :
    write_dir id ++ '/' :: history_file abi id false
      ≠ write_dir id ++ '/' :: write_file abi id := by
  rw [history_file_eq abi id h, write_file_eq abi id h]
  intro e
  have := congrArg List.length e
  simp [DNET_HISTORY_SUFFIX] at this

/-! ## Writing: the system calls -/

theorem int_of_ssize_neg_one : int_of_ssize (-1) = -1 := by decide

theorem sys_pwrite_eq (w : World) (fd : Path) (append : Bool) (buf : List Nat)
    (count offset : Nat) :
    sys_pwrite w fd append buf count offset =
      if 9223372036854775808 ≤ offset then
        (-1, (w.log (SysOp.pwrite fd offset count)).fail EINVAL)
      else ((count : Int), (w.log (SysOp.pwrite fd offset count)).put fd
        (pwrite_bytes ((w.files fd).getD [])
          (if append then ((w.files fd).getD []).length else offset) (buf.take count))) := rfl

/-- What a `dnet_update_history` that reported no error did: the record, as it stands in
host memory, is appended to the log. -/
theorem dnet_update_history_ok (abi : Abi) (w : World) (md : Path) (id : List Nat)
    (io : dnet_io_attr) (hok : (dnet_update_history abi w md id io false).1 = 0) :
    (dnet_update_history abi w md id io false).2.files = fun p =>
      if p = md ++ '/' :: history_file abi id false then
        some ((w.files (md ++ '/' :: history_file abi id false)).getD []
          ++ (store_dnet_io_attr abi io).take (sizeof_dnet_io_attr abi))
      else w.files p := by
  unfold dnet_update_history at hok ⊢
  unfold sys_openat_creat at hok ⊢
  simp only [] at hok ⊢
  by_cases h1 : md ∉ w.dirs
  · simp [h1, World.fail, World.log] at hok
  · rw [if_neg h1] at hok ⊢
    by_cases h2 : md ++ '/' :: history_file abi id false ∈ w.dirs
    · simp [h2, World.fail, World.log] at hok
    · rw [if_neg h2] at hok ⊢
      cases hf : w.files (md ++ '/' :: history_file abi id false) with
      | none =>
        simp only [hf] at hok ⊢
        funext p
        by_cases hp : p = md ++ '/' :: history_file abi id false
        · subst hp
          split <;> simp [sys_write, World.put, World.log]
        · split <;> simp [sys_write, World.put, World.log, hp]
      | some old =>
        simp only [hf] at hok ⊢
        funext p
        by_cases hp : p = md ++ '/' :: history_file abi id false
        · subst hp
          split <;> simp [sys_write, World.put, World.log, hf]
        · split <;> simp [sys_write, World.put, World.log, hp]

/-- What a `write_io` that reported no error did to the files: the body is in the data
file and, under `UPDATE` (when the byte count survives the assignment to `int`), the
record is appended to the history log. -/
theorem write_io_ok_files (abi : Abi) (cmd : dnet_cmd) (io : dnet_io_attr) (body : List Nat)
    (md dd : Path) (append : Bool) (w : World)
    (hne : md ++ '/' :: history_file abi cmd.id false ≠ dd)
    (hok : (write_io abi cmd io body md dd append w).1 = 0) :
    (write_io abi cmd io body md dd append w).2.files = fun p =>
      if p = md ++ '/' :: history_file abi cmd.id false
          ∧ io.flags &&& DNET_IO_FLAGS_UPDATE ≠ 0 ∧ 0 < int_of_ssize (io.size : Int) then
        some ((w.files (md ++ '/' :: history_file abi cmd.id false)).getD []
          ++ (store_dnet_io_attr abi io).take (sizeof_dnet_io_attr abi))
      else if p = dd then
        some (pwrite_bytes ((w.files dd).getD [])
          (if append then ((w.files dd).getD []).length else io.offset) (body.take io.size))
      else w.files p := by
  unfold write_io at hok ⊢
  rw [sys_pwrite_eq] at hok ⊢
  by_cases hoff : 9223372036854775808 ≤ io.offset
  · simp [hoff, int_of_ssize_neg_one, World.fail, World.log] at hok
  · simp only [if_neg hoff] at hok ⊢
    by_cases hsz : int_of_ssize (io.size : Int) ≤ 0
    · simp only [hsz, if_true] at hok ⊢
      funext p
      have : ¬ (0 < int_of_ssize (io.size : Int)) := by omega
      simp [this, World.put, World.log]
    · simp only [hsz, if_false] at hok ⊢
      by_cases hup : io.flags &&& DNET_IO_FLAGS_UPDATE ≠ 0
      · rw [if_pos hup] at hok ⊢
        have hh : (dnet_update_history abi
            ((w.log (SysOp.pwrite dd io.offset io.size)).put dd
              (pwrite_bytes ((w.files dd).getD [])
                (if append then ((w.files dd).getD []).length else io.offset)
                (body.take io.size))) md cmd.id io false).1 = 0 := by
          by_contra hc
          simp only [ne_eq, hc, not_false_eq_true, if_true] at hok
        have hf := dnet_update_history_ok abi _ md cmd.id io hh
        simp only [ne_eq, hh, not_true_eq_false, if_false]
        rw [hf]
        funext p
        have hpos : 0 < int_of_ssize (io.size : Int) := by omega
        by_cases hp : p = md ++ '/' :: history_file abi cmd.id false
        · subst hp
          simp [hup, hpos, World.put, World.log, hne]
        · simp [hp, World.put, World.log]
      · rw [if_neg hup]
        funext p
        simp [hup, World.put, World.log]

theorem sys_mkdirat_passes (w : World) (dir : Path) :
    ¬ ((sys_mkdirat w dir).1 < 0 ∧ (sys_mkdirat w dir).2.errno ≠ EEXIST) := by
  unfold sys_mkdirat
  split <;> simp [World.fail, World.log]

theorem sys_mkdirat_files (w : World) (dir : Path) : (sys_mkdirat w dir).2.files = w.files := by
  unfold sys_mkdirat
  split <;> rfl

theorem sys_mkdirat_taken (w : World) (dir : Path) :
    dir ∈ (sys_mkdirat w dir).2.dirs ∨ ((sys_mkdirat w dir).2.files dir).isSome := by
  unfold sys_mkdirat
  split
  · rename_i h
    simpa [World.fail, World.log] using h
  · simp [World.log]

theorem sys_opendir_taken (w : World) (dir : Path)
    (h : dir ∈ w.dirs ∨ (w.files dir).isSome) :
    sys_opendir w dir = (some dir, w.log (SysOp.opendir dir)) := by
  unfold sys_opendir
  rw [if_pos h]

/-- The world in which `write_open` opens the data file: after `mkdirat` and the `openat`
of the directory. -/
theorem write_open_eq (abi : Abi) (cmd : dnet_cmd) (io : dnet_io_attr) (body : List Nat)
    (w : World) :
    write_open abi cmd io body w =
      match (sys_openat_creat ((sys_mkdirat w (write_dir cmd.id)).2.log
          (SysOp.opendir (write_dir cmd.id))) (write_dir cmd.id) (write_file abi cmd.id)
          (decide (io.flags &&& DNET_IO_FLAGS_APPEND ≠ 0))).1 with
      | none => (-(sys_openat_creat ((sys_mkdirat w (write_dir cmd.id)).2.log
          (SysOp.opendir (write_dir cmd.id))) (write_dir cmd.id) (write_file abi cmd.id)
          (decide (io.flags &&& DNET_IO_FLAGS_APPEND ≠ 0))).2.errno,
          (sys_openat_creat ((sys_mkdirat w (write_dir cmd.id)).2.log
          (SysOp.opendir (write_dir cmd.id))) (write_dir cmd.id) (write_file abi cmd.id)
          (decide (io.flags &&& DNET_IO_FLAGS_APPEND ≠ 0))).2)
      | some dd => write_io abi cmd io body (write_dir cmd.id) dd
          (decide (io.flags &&& DNET_IO_FLAGS_APPEND ≠ 0))
          (sys_openat_creat ((sys_mkdirat w (write_dir cmd.id)).2.log
          (SysOp.opendir (write_dir cmd.id))) (write_dir cmd.id) (write_file abi cmd.id)
          (decide (io.flags &&& DNET_IO_FLAGS_APPEND ≠ 0))).2 := by
  unfold write_open
  simp only []
  rw [if_neg (sys_mkdirat_passes w _), sys_opendir_taken _ _ (sys_mkdirat_taken w _)]

/-- What `openat(md, name, O_CREAT ...)` yields when it succeeds: the descriptor names
`md/name`, and no file other than a newly created empty `md/name` changes. -/
theorem sys_openat_creat_some (w : World) (md name : Path) (append : Bool) (dd : Path)
    (h : (sys_openat_creat w md name append).1 = some dd) :
    dd = md ++ '/' :: name ∧
      (∀ p, ((sys_openat_creat w md name append).2.files p).getD [] = (w.files p).getD []) ∧
      (∀ p, p ≠ dd → (sys_openat_creat w md name append).2.files p = w.files p) := by
  unfold sys_openat_creat at h ⊢
  simp only [] at h ⊢
  by_cases h1 : md ∉ w.dirs
  · simp [h1] at h
  · rw [if_neg h1] at h ⊢
    by_cases h2 : md ++ '/' :: name ∈ w.dirs
    · simp [h2] at h
    · rw [if_neg h2] at h ⊢
      cases hf : w.files (md ++ '/' :: name) with
      | none =>
        simp only [hf, Option.some.injEq] at h ⊢
        subst h
        refine ⟨rfl, ?_, ?_⟩
        · intro p
          by_cases hp : p = md ++ '/' :: name
          · subst hp; simp [World.put, World.log, hf]
          · simp [World.put, World.log, hp]
        · intro p hp
          simp [World.put, World.log, hp]
      | some old =>
        simp only [hf, Option.some.injEq] at h ⊢
        subst h
        exact ⟨rfl, fun _ => rfl, fun _ _ => rfl⟩

theorem sys_openat_creat_none (w : World) (md name : Path) (append : Bool)
    (h : (sys_openat_creat w md name append).1 = none) :
    (sys_openat_creat w md name append).2.errno ≠ 0 := by
  unfold sys_openat_creat at h ⊢
  simp only [] at h ⊢
  by_cases h1 : md ∉ w.dirs
  · simp [h1, World.fail]
  · rw [if_neg h1] at h ⊢
    by_cases h2 : md ++ '/' :: name ∈ w.dirs
    · simp [h2, World.fail]
    · rw [if_neg h2] at h ⊢
      cases hf : w.files (md ++ '/' :: name) <;> simp [hf] at h

/-- What a `write_open` that reported no error did to the files. -/
theorem write_open_ok_files (abi : Abi) (cmd : dnet_cmd) (io : dnet_io_attr)
    (body : List Nat) (w : World) (hid : cmd.id.length = abi.DNET_ID_SIZE)
    (hok : (write_open abi cmd io body w).1 = 0) :
    (write_open abi cmd io body w).2.files = fun p =>
      if p = write_dir cmd.id ++ '/' :: history_file abi cmd.id false
          ∧ io.flags &&& DNET_IO_FLAGS_UPDATE ≠ 0 ∧ 0 < int_of_ssize (io.size : Int) then
        some ((w.files (write_dir cmd.id ++ '/' :: history_file abi cmd.id false)).getD []
          ++ (store_dnet_io_attr abi io).take (sizeof_dnet_io_attr abi))
      else if p = write_dir cmd.id ++ '/' :: write_file abi cmd.id then
        some (pwrite_bytes ((w.files (write_dir cmd.id ++ '/' :: write_file abi cmd.id)).getD [])
          (if io.flags &&& DNET_IO_FLAGS_APPEND ≠ 0
            then ((w.files (write_dir cmd.id ++ '/' :: write_file abi cmd.id)).getD []).length
            else io.offset) (body.take io.size))
      else w.files p := by
  rw [write_open_eq] at hok ⊢
  have hne := history_path_ne abi cmd.id hid
  generalize hw1 : (sys_mkdirat w (write_dir cmd.id)).2.log (SysOp.opendir (write_dir cmd.id))
    = w1 at hok ⊢
  have hw1f : w1.files = w.files := by
    rw [← hw1]
    exact sys_mkdirat_files w _
  cases ho : (sys_openat_creat w1 (write_dir cmd.id) (write_file abi cmd.id)
      (decide (io.flags &&& DNET_IO_FLAGS_APPEND ≠ 0))).1 with
  | none =>
    simp only [ho] at hok
    have := sys_openat_creat_none _ _ _ _ ho
    omega
  | some dd =>
    simp only [ho] at hok ⊢
    obtain ⟨hdd, hget, hother⟩ := sys_openat_creat_some _ _ _ _ _ ho
    subst hdd
    rw [write_io_ok_files abi cmd io body _ _ _ _ hne hok]
    funext p
    rw [hget, hget, hw1f]
    by_cases hp : p = write_dir cmd.id ++ '/' :: write_file abi cmd.id
    · subst hp
      simp [Ne.symm hne]
    · rw [hother p hp, hw1f]
      simp [hp]

/-! ## Writing leaves the connection alone -/

theorem sys_openat_creat_link (w : World) (md name : Path) (ap : Bool) :
    (sys_openat_creat w md name ap).2.sent = w.sent ∧
      (sys_openat_creat w md name ap).2.send_rc = w.send_rc ∧
      (sys_openat_creat w md name ap).2.malloc_ok = w.malloc_ok := by
  unfold sys_openat_creat
  simp only []
  cases hf : w.files (md ++ '/' :: name) <;> split_ifs <;> exact ⟨rfl, rfl, rfl⟩

theorem dnet_update_history_link (abi : Abi) (w : World) (md : Path) (id : List Nat)
    (io : dnet_io_attr) (tmp : Bool) :
    (dnet_update_history abi w md id io tmp).2.sent = w.sent ∧
      (dnet_update_history abi w md id io tmp).2.send_rc = w.send_rc ∧
      (dnet_update_history abi w md id io tmp).2.malloc_ok = w.malloc_ok := by
  unfold dnet_update_history
  simp only []
  have h3 := sys_openat_creat_link w md (history_file abi id tmp) true
  generalize sys_openat_creat w md (history_file abi id tmp) true = o at h3 ⊢
  cases ho : o.1 with
  | none => exact h3
  | some fd =>
    simp only []
    split_ifs <;> exact h3

theorem write_io_link (abi : Abi) (cmd : dnet_cmd) (io : dnet_io_attr) (body : List Nat)
    (md dd : Path) (append : Bool) (w : World) :
    (write_io abi cmd io body md dd append w).2.sent = w.sent ∧
      (write_io abi cmd io body md dd append w).2.send_rc = w.send_rc ∧
      (write_io abi cmd io body md dd append w).2.malloc_ok = w.malloc_ok := by
  unfold write_io
  simp only []
  have hp : (sys_pwrite w dd append body io.size io.offset).2.sent = w.sent ∧
      (sys_pwrite w dd append body io.size io.offset).2.send_rc = w.send_rc ∧
      (sys_pwrite w dd append body io.size io.offset).2.malloc_ok = w.malloc_ok := by
    rw [sys_pwrite_eq]
    split_ifs <;> exact ⟨rfl, rfl, rfl⟩
  generalize sys_pwrite w dd append body io.size io.offset = r at hp ⊢
  have hh := dnet_update_history_link abi r.2 md cmd.id io false
  split_ifs
  · exact hp
  · exact ⟨hh.1.trans hp.1, hh.2.1.trans hp.2.1, hh.2.2.trans hp.2.2⟩
  · exact ⟨hh.1.trans hp.1, hh.2.1.trans hp.2.1, hh.2.2.trans hp.2.2⟩
  · exact hp

theorem write_open_link (abi : Abi) (cmd : dnet_cmd) (io : dnet_io_attr) (body : List Nat)
    (w : World) :
    (write_open abi cmd io body w).2.sent = w.sent ∧
      (write_open abi cmd io body w).2.send_rc = w.send_rc ∧
      (write_open abi cmd io body w).2.malloc_ok = w.malloc_ok := by
  rw [write_open_eq]
  have h2 : ((sys_mkdirat w (write_dir cmd.id)).2.log (SysOp.opendir (write_dir cmd.id))).sent
        = w.sent ∧
      ((sys_mkdirat w (write_dir cmd.id)).2.log (SysOp.opendir (write_dir cmd.id))).send_rc
        = w.send_rc ∧
      ((sys_mkdirat w (write_dir cmd.id)).2.log (SysOp.opendir (write_dir cmd.id))).malloc_ok
        = w.malloc_ok := by
    unfold sys_mkdirat
    split_ifs <;> simp [World.log, World.fail]
  generalize (sys_mkdirat w (write_dir cmd.id)).2.log (SysOp.opendir (write_dir cmd.id))
    = w1 at h2 ⊢
  have h3 := sys_openat_creat_link w1 (write_dir cmd.id) (write_file abi cmd.id)
    (decide (io.flags &&& DNET_IO_FLAGS_APPEND ≠ 0))
  generalize sys_openat_creat w1 (write_dir cmd.id) (write_file abi cmd.id)
    (decide (io.flags &&& DNET_IO_FLAGS_APPEND ≠ 0)) = o at h3 ⊢
  cases ho : o.1 with
  | none =>
    simp only []
    exact ⟨h3.1.trans h2.1, h3.2.1.trans h2.2.1, h3.2.2.trans h2.2.2⟩
  | some dd =>
    simp only []
    have h4 := write_io_link abi cmd io body (write_dir cmd.id) dd
      (decide (io.flags &&& DNET_IO_FLAGS_APPEND ≠ 0)) o.2
    exact ⟨h4.1.trans (h3.1.trans h2.1), h4.2.1.trans (h3.2.1.trans h2.2.1),
      h4.2.2.trans (h3.2.2.trans h2.2.2)⟩

theorem dnet_cmd_write_link (abi : Abi) (n : dnet_node) (cmd : dnet_cmd) (attr : dnet_attr)
    (data : List Nat) (w : World) :
    (dnet_cmd_write abi n cmd attr data w).2.sent = w.sent ∧
      (dnet_cmd_write abi n cmd attr data w).2.send_rc = w.send_rc ∧
      (dnet_cmd_write abi n cmd attr data w).2.malloc_ok = w.malloc_ok := by
  unfold dnet_cmd_write
  simp only []
  split_ifs
  · exact ⟨rfl, rfl, rfl⟩
  · exact ⟨rfl, rfl, rfl⟩
  · cases hr : n.root with
    | none => exact ⟨rfl, rfl, rfl⟩
    | some r => exact write_open_link ..

/-- A `dnet_cmd_write` that reported no error passed the checks and ran `write_open`. -/
theorem dnet_cmd_write_ok (abi : Abi) (n : dnet_node) (cmd : dnet_cmd) (attr : dnet_attr)
    (data : List Nat) (w : World) (hok : (dnet_cmd_write abi n cmd attr data w).1 = 0) :
    dnet_cmd_write abi n cmd attr data w
      = write_open abi cmd (dnet_convert_io_attr abi (load_dnet_io_attr abi data))
          (data.drop (sizeof_dnet_io_attr abi)) w := by
  unfold dnet_cmd_write at hok ⊢
  simp only [] at hok ⊢
  split_ifs at hok ⊢
  · simp at hok
  · simp at hok
  · cases hr : n.root with
    | none => simp [hr] at hok
    | some r => rfl

/-- A `dnet_cmd_write` that reported no error was given a body of at least one byte. -/
theorem dnet_cmd_write_ok_size (abi : Abi) (n : dnet_node) (cmd : dnet_cmd) (attr : dnet_attr)
    (data : List Nat) (w : World) (hok : (dnet_cmd_write abi n cmd attr data w).1 = 0) :
    1 ≤ (dnet_convert_io_attr abi (load_dnet_io_attr abi data)).size := by
  unfold dnet_cmd_write at hok
  simp only [] at hok
  split_ifs at hok with h1 h2
  · simp at hok
  · simp at hok
  · omega

theorem pwrite_bytes_new (data : List Nat) (pos : Nat) (h : pos = 0) :
    pwrite_bytes [] pos data = data := by
  subst h
  simp [pwrite_bytes]

/-- Claim C3: starting from a store without object `I`, a successful `dnet_cmd_write` of
`N > 0` bytes `D` at offset 0 under id `I` (command id and `io_attr` id alike), followed by
a `dnet_cmd_read` of id `I` with offset 0 and size 0 that the transport accepts, returns 0
and emits chunks whose data, in emission order, is exactly `D`. -/
theorem write_then_read_returns_data (abi : Abi) (n : dnet_node) (I D : List Nat)
    (wcmd : dnet_cmd) (wattr : dnet_attr) (wdata : List Nat) (wflags : Nat)
    (rcmd : dnet_cmd) (rattr : dnet_attr) (rdata : List Nat) (rflags : Nat) (w : World)
    (hM : 0 < abi.DNET_MAX_READ_TRANS_SIZE)
    (hI : I.length = abi.DNET_ID_SIZE)
    (_hD : D ≠ [])
    (hN : D.length < 9223372036854775808)
    (hwid : wcmd.id = I)
    (hwio : dnet_convert_io_attr abi (load_dnet_io_attr abi wdata)
      = { id := I, offset := 0, size := D.length, flags := wflags })
    (hwbody : (wdata.drop (sizeof_dnet_io_attr abi)).take D.length = D)
    (hnew : w.files (read_file abi I) = none)
    (hok : (dnet_cmd_write abi n wcmd wattr wdata w).1 = 0)
    (hrattr : rattr.size = sizeof_dnet_io_attr abi)
    (hrio : dnet_convert_io_attr abi (load_dnet_io_attr abi rdata)
      = { id := I, offset := 0, size := 0, flags := rflags })
    (hmalloc : w.malloc_ok = true)
    (hsend : ∀ k, w.send_rc k = 0) :
    ∃ w2 frames,
      dnet_cmd_read abi rcmd rattr rdata (dnet_cmd_write abi n wcmd wattr wdata w).2
        = some (0, w2) ∧
      w2.sent = (dnet_cmd_write abi n wcmd wattr wdata w).2.sent ++ frames ∧
      concat_data frames = D := by
  have hlink := dnet_cmd_write_link abi n wcmd wattr wdata w
  have hopen := dnet_cmd_write_ok abi n wcmd wattr wdata w hok
  rw [hopen] at hok hlink ⊢
  rw [hwio] at hok hlink ⊢
  have hid : wcmd.id.length = abi.DNET_ID_SIZE := by rw [hwid]; exact hI
  have hfiles := write_open_ok_files abi wcmd _ _ w hid hok
  have hpath : read_file abi I = write_dir wcmd.id ++ '/' :: write_file abi wcmd.id := by
    rw [hwid]; exact read_file_eq abi I hI
  have hne := history_path_ne abi wcmd.id hid
  have hcontent : (write_open abi wcmd { id := I, offset := 0, size := D.length, flags := wflags }
      (wdata.drop (sizeof_dnet_io_attr abi)) w).2.files (read_file abi I) = some D := by
    rw [hfiles, hpath]
    rw [hpath] at hnew
    simp only []
    rw [hnew]
    split_ifs with h1 h2
    · exact absurd h1.1.symm hne
    · simp only [Option.getD_none, List.length_nil, hwbody, pwrite_bytes_new D 0 rfl]
    · simp only [Option.getD_none, hwbody, pwrite_bytes_new D 0 rfl]
  generalize (write_open abi wcmd { id := I, offset := 0, size := D.length, flags := wflags }
      (wdata.drop (sizeof_dnet_io_attr abi)) w) = r at hlink hcontent ⊢
  have hrun := dnet_cmd_read_run abi rcmd rattr rdata r.2
    { id := I, offset := 0, size := 0, flags := rflags } D D.length hM hrattr hrio hcontent
    (by simp) (by simpa using hN) (by rw [hlink.2.2]; exact hmalloc)
    (by rw [hlink.2.1]; exact hsend)
  refine ⟨_, _, hrun, rfl, ?_⟩
  have := concat_read_frames abi rcmd { id := I, offset := 0, size := 0, flags := rflags } D
    (spec_chunk_count abi D.length) 0 D.length (chunk_count_covers _ _ hM)
  simpa using this

/-! ## Scenario 1 and 2 on the model -/

/-- Claim C1 fails as stated: the read of scenario 1 fits in one chunk, and that single
(final) reply frame is received with `MORE` set, not cleared. -/
theorem read_single_chunk_has_more :
    (dnet_cmd_read (scenario_abi 1024) scenario_read_cmd scenario_read_attr scenario_read_data
        (scenario_written 1024)).map
      (fun r => (r.1, r.2.sent.map (fun p =>
        ((dnet_convert_cmd (scenario_abi 1024) p.cmd).flags &&& DNET_FLAGS_MORE, p.data))))
      = some (0, [(DNET_FLAGS_MORE, scenario_hello)]) := by
  decide

theorem dnet_cmd_read_every_chunk_has_more_witness :
    ∃ r frames, dnet_cmd_read (scenario_abi 3) scenario_read_cmd scenario_read_attr
        scenario_read_data (scenario_written 3) = some r ∧
      r.2.sent = (scenario_written 3).sent ++ frames ∧
      ∀ p ∈ frames, ∃ c : dnet_cmd, c.flags = DNET_FLAGS_MORE ∧
        p.cmd = dnet_convert_cmd (scenario_abi 3) c :=
  dnet_cmd_read_every_chunk_has_more (scenario_abi 3) scenario_read_cmd scenario_read_attr
    scenario_read_data (scenario_written 3) (by decide)

theorem dnet_cmd_read_chunking_witness :
    ∃ w1, dnet_cmd_read (scenario_abi 3) scenario_read_cmd scenario_read_attr
        scenario_read_data (scenario_written 3) = some (0, w1) ∧
      w1.sent = (scenario_written 3).sent ++ (List.range (spec_chunk_count (scenario_abi 3) 5)).map
        (spec_read_frame (scenario_abi 3) scenario_read_cmd [1, 2, 3, 4] scenario_hello 0 5) ∧
      (∀ k, k < spec_chunk_count (scenario_abi 3) 5 →
        1 ≤ spec_chunk_size (scenario_abi 3) 5 k ∧
          spec_chunk_size (scenario_abi 3) 5 k ≤ (scenario_abi 3).DNET_MAX_READ_TRANS_SIZE) ∧
      ((List.range (spec_chunk_count (scenario_abi 3) 5)).map
        (spec_chunk_size (scenario_abi 3) 5)).sum = 5 ∧
      (∀ k, k + 1 < spec_chunk_count (scenario_abi 3) 5 →
        0 + k * (scenario_abi 3).DNET_MAX_READ_TRANS_SIZE
          < 0 + (k + 1) * (scenario_abi 3).DNET_MAX_READ_TRANS_SIZE ∧
        0 + (k + 1) * (scenario_abi 3).DNET_MAX_READ_TRANS_SIZE
          = 0 + k * (scenario_abi 3).DNET_MAX_READ_TRANS_SIZE
            + spec_chunk_size (scenario_abi 3) 5 k) :=
  dnet_cmd_read_chunking (scenario_abi 3) scenario_read_cmd scenario_read_attr
    scenario_read_data (scenario_written 3)
    { id := [1, 2, 3, 4], offset := 0, size := 0, flags := 0 } scenario_hello 5
    (by decide) (by decide) (by decide) (by decide) (by decide) (by decide) (by decide)
    (by decide) (fun _ => rfl)

theorem write_then_read_returns_data_witness :
    ∃ w2 frames,
      dnet_cmd_read (scenario_abi 3) scenario_read_cmd scenario_read_attr scenario_read_data
          (dnet_cmd_write (scenario_abi 3) scenario_node scenario_write_cmd
            scenario_write_attr (scenario_write_data 0) scenario_world).2 = some (0, w2) ∧
      w2.sent = (dnet_cmd_write (scenario_abi 3) scenario_node scenario_write_cmd
            scenario_write_attr (scenario_write_data 0) scenario_world).2.sent ++ frames ∧
      concat_data frames = scenario_hello :=
  write_then_read_returns_data (scenario_abi 3) scenario_node [1, 2, 3, 4] scenario_hello
    scenario_write_cmd scenario_write_attr (scenario_write_data 0) 0
    scenario_read_cmd scenario_read_attr scenario_read_data 0 scenario_world
    (by decide) (by decide) (by decide) (by decide) (by decide) (by decide) (by decide)
    (by decide) (by decide) (by decide) (by decide) (by decide) (fun _ => rfl)

/-! ## Writing: the order of the system calls -/

theorem sys_openat_creat_ops (w : World) (md name : Path) (ap : Bool) :
    (sys_openat_creat w md name ap).2.ops
      = w.ops ++ [SysOp.openat (md ++ '/' :: name) true ap] := by
  unfold sys_openat_creat
  simp only []
  cases hf : w.files (md ++ '/' :: name) <;> split_ifs <;> rfl

theorem dnet_update_history_ops (abi : Abi) (w : World) (md : Path) (id : List Nat)
    (io : dnet_io_attr) (tmp : Bool) :
    ∃ rest, (dnet_update_history abi w md id io tmp).2.ops = w.ops ++ rest := by
  unfold dnet_update_history
  simp only []
  have h3 := sys_openat_creat_ops w md (history_file abi id tmp) true
  generalize sys_openat_creat w md (history_file abi id tmp) true = o at h3 ⊢
  cases ho : o.1 with
  | none => exact ⟨_, h3⟩
  | some fd =>
    simp only []
    split_ifs <;> exact ⟨_, by simp [sys_write, World.log, World.put, h3]; rfl⟩

theorem write_io_ops (abi : Abi) (cmd : dnet_cmd) (io : dnet_io_attr) (body : List Nat)
    (md dd : Path) (append : Bool) (w : World) :
    ∃ rest, (write_io abi cmd io body md dd append w).2.ops = w.ops ++ rest := by
  unfold write_io
  simp only []
  have hp : (sys_pwrite w dd append body io.size io.offset).2.ops
      = w.ops ++ [SysOp.pwrite dd io.offset io.size] := by
    rw [sys_pwrite_eq]
    split_ifs <;> rfl
  generalize sys_pwrite w dd append body io.size io.offset = r at hp ⊢
  obtain ⟨rest, hh⟩ := dnet_update_history_ops abi r.2 md cmd.id io false
  split_ifs
  · exact ⟨_, hp⟩
  · exact ⟨_, by rw [hh, hp, List.append_assoc]⟩
  · exact ⟨_, by rw [hh, hp, List.append_assoc]⟩
  · exact ⟨_, hp⟩

theorem write_open_ops (abi : Abi) (cmd : dnet_cmd) (io : dnet_io_attr) (body : List Nat)
    (w : World) :
    ∃ rest, (write_open abi cmd io body w).2.ops
      = w.ops ++ SysOp.mkdirat (write_dir cmd.id) :: rest := by
  rw [write_open_eq]
  have h2 : ((sys_mkdirat w (write_dir cmd.id)).2.log (SysOp.opendir (write_dir cmd.id))).ops
      = w.ops ++ [SysOp.mkdirat (write_dir cmd.id), SysOp.opendir (write_dir cmd.id)] := by
    unfold sys_mkdirat
    split_ifs <;> simp [World.log, World.fail]
  generalize (sys_mkdirat w (write_dir cmd.id)).2.log (SysOp.opendir (write_dir cmd.id))
    = w1 at h2 ⊢
  have h3 := sys_openat_creat_ops w1 (write_dir cmd.id) (write_file abi cmd.id)
    (decide (io.flags &&& DNET_IO_FLAGS_APPEND ≠ 0))
  generalize sys_openat_creat w1 (write_dir cmd.id) (write_file abi cmd.id)
    (decide (io.flags &&& DNET_IO_FLAGS_APPEND ≠ 0)) = o at h3 ⊢
  cases ho : o.1 with
  | none =>
    simp only []
    exact ⟨[SysOp.opendir (write_dir cmd.id),
      SysOp.openat (write_dir cmd.id ++ '/' :: write_file abi cmd.id) true
        (decide (io.flags &&& DNET_IO_FLAGS_APPEND ≠ 0))], by rw [h3, h2]; simp⟩
  | some dd =>
    simp only []
    obtain ⟨rest, h4⟩ := write_io_ops abi cmd io body (write_dir cmd.id) dd
      (decide (io.flags &&& DNET_IO_FLAGS_APPEND ≠ 0)) o.2
    exact ⟨SysOp.opendir (write_dir cmd.id) ::
      SysOp.openat (write_dir cmd.id ++ '/' :: write_file abi cmd.id) true
        (decide (io.flags &&& DNET_IO_FLAGS_APPEND ≠ 0)) :: rest, by rw [h4, h3, h2]; simp⟩

/-- Claim C7 (as amended): on a node with a configured root, `dnet_cmd_write` goes on to
the file system steps - the first of which is the `mkdirat` of the directory - if and only
if `attr.size = sizeof(io_attr) + io.size`, `io.size >= 1` and `io.size <= cmd.size`
(`io.size` read after the endian conversion); otherwise it returns `-EINVAL` and leaves
the world as it was: no directory made, no file opened, nothing written. -/
theorem dnet_cmd_write_validation (abi : Abi) (n : dnet_node) (cmd : dnet_cmd)
    (attr : dnet_attr) (data : List Nat) (w : World) (root : Path)
    (hroot : n.root = some root) :
    ((∃ rest, (dnet_cmd_write abi n cmd attr data w).2.ops
          = w.ops ++ SysOp.mkdirat (write_dir cmd.id) :: rest) ↔
      (attr.size = sizeof_dnet_io_attr abi
          + (dnet_convert_io_attr abi (load_dnet_io_attr abi data)).size ∧
        1 ≤ (dnet_convert_io_attr abi (load_dnet_io_attr abi data)).size ∧
        (dnet_convert_io_attr abi (load_dnet_io_attr abi data)).size ≤ cmd.size)) ∧
    (¬ (attr.size = sizeof_dnet_io_attr abi
          + (dnet_convert_io_attr abi (load_dnet_io_attr abi data)).size ∧
        1 ≤ (dnet_convert_io_attr abi (load_dnet_io_attr abi data)).size ∧
        (dnet_convert_io_attr abi (load_dnet_io_attr abi data)).size ≤ cmd.size) →
      dnet_cmd_write abi n cmd attr data w = (-EINVAL, w)) := by
  generalize hio : dnet_convert_io_attr abi (load_dnet_io_attr abi data) = io
  have hbad : ¬ (attr.size = sizeof_dnet_io_attr abi + io.size ∧ 1 ≤ io.size
      ∧ io.size ≤ cmd.size) → dnet_cmd_write abi n cmd attr data w = (-EINVAL, w) := by
    intro hc
    unfold dnet_cmd_write
    simp only [hio]
    by_cases h1 : attr.size ≤ sizeof_dnet_io_attr abi
    · rw [if_pos h1]
    · rw [if_neg h1]
      by_cases h2 : io.size ≠ attr.size - sizeof_dnet_io_attr abi ∨ io.size > cmd.size
      · rw [if_pos h2]
      · exfalso
        apply hc
        omega
  have hgood : (attr.size = sizeof_dnet_io_attr abi + io.size ∧ 1 ≤ io.size
      ∧ io.size ≤ cmd.size) → dnet_cmd_write abi n cmd attr data w
        = write_open abi cmd io (data.drop (sizeof_dnet_io_attr abi)) w := by
    intro hc
    unfold dnet_cmd_write
    simp only [hio, hroot]
    rw [if_neg (by omega), if_neg (by omega)]
  refine ⟨⟨?_, ?_⟩, hbad⟩
  · intro ⟨rest, hops⟩
    by_contra hc
    rw [hbad hc] at hops
    have := congrArg List.length hops
    simp at this
  · intro hc
    rw [hgood hc]
    exact write_open_ops abi cmd io _ w

/-- Claim C7 fails as stated: a WRITE whose attribute holds exactly one `io_attr` with
`io.size = 0` meets `attr.size = sizeof(io_attr) + io.size` and `io.size <= cmd.size`, yet
`dnet_cmd_write` returns `-EINVAL` without touching the store. -/
theorem dnet_cmd_write_rejects_empty_body :
    ((24 : Nat) = sizeof_dnet_io_attr (scenario_abi 3)
        + (dnet_convert_io_attr (scenario_abi 3)
            (load_dnet_io_attr (scenario_abi 3) (wire_io_attr [1, 2, 3, 4] 0 0 0))).size ∧
      (dnet_convert_io_attr (scenario_abi 3)
            (load_dnet_io_attr (scenario_abi 3) (wire_io_attr [1, 2, 3, 4] 0 0 0))).size
        ≤ scenario_write_cmd.size) ∧
    (dnet_cmd_write (scenario_abi 3) scenario_node scenario_write_cmd
        { cmd := DNET_CMD_WRITE, size := 24, flags := 0 }
        (wire_io_attr [1, 2, 3, 4] 0 0 0) scenario_world).1 = -EINVAL ∧
    (dnet_cmd_write (scenario_abi 3) scenario_node scenario_write_cmd
        { cmd := DNET_CMD_WRITE, size := 24, flags := 0 }
        (wire_io_attr [1, 2, 3, 4] 0 0 0) scenario_world).2.ops = [] := by
  decide

theorem dnet_cmd_write_validation_witness :
    ((∃ rest, (dnet_cmd_write (scenario_abi 3) scenario_node scenario_write_cmd
            scenario_write_attr (scenario_write_data 0) scenario_world).2.ops
          = scenario_world.ops ++ SysOp.mkdirat (write_dir scenario_write_cmd.id) :: rest) ↔
      (scenario_write_attr.size = sizeof_dnet_io_attr (scenario_abi 3)
          + (dnet_convert_io_attr (scenario_abi 3)
              (load_dnet_io_attr (scenario_abi 3) (scenario_write_data 0))).size ∧
        1 ≤ (dnet_convert_io_attr (scenario_abi 3)
              (load_dnet_io_attr (scenario_abi 3) (scenario_write_data 0))).size ∧
        (dnet_convert_io_attr (scenario_abi 3)
              (load_dnet_io_attr (scenario_abi 3) (scenario_write_data 0))).size
          ≤ scenario_write_cmd.size)) ∧
    (¬ (scenario_write_attr.size = sizeof_dnet_io_attr (scenario_abi 3)
          + (dnet_convert_io_attr (scenario_abi 3)
              (load_dnet_io_attr (scenario_abi 3) (scenario_write_data 0))).size ∧
        1 ≤ (dnet_convert_io_attr (scenario_abi 3)
              (load_dnet_io_attr (scenario_abi 3) (scenario_write_data 0))).size ∧
        (dnet_convert_io_attr (scenario_abi 3)
              (load_dnet_io_attr (scenario_abi 3) (scenario_write_data 0))).size
          ≤ scenario_write_cmd.size) →
      dnet_cmd_write (scenario_abi 3) scenario_node scenario_write_cmd scenario_write_attr
        (scenario_write_data 0) scenario_world = (-EINVAL, scenario_world)) :=
  dnet_cmd_write_validation (scenario_abi 3) scenario_node scenario_write_cmd
    scenario_write_attr (scenario_write_data 0) scenario_world ['r', 'o', 'o', 't'] rfl

/-! ## The history log -/

theorem int_of_ssize_small (s : Nat) (h : s < 2147483648) : int_of_ssize (s : Int) = s := by
  unfold int_of_ssize to_u32 to_s32
  have h1 : ((s : Int) % 4294967296).toNat = s := by omega
  rw [h1]
  have h2 : s % 4294967296 = s := by omega
  rw [h2, if_pos h]

/-- What one successful WRITE of fewer than 2^31 bytes does to the history log of its id:
under `UPDATE` the record is appended (the log is created if absent), otherwise the log is
left as it was. -/
theorem dnet_cmd_write_history (abi : Abi) (n : dnet_node) (r : WriteReq) (w : World)
    (hid : r.cmd.id.length = abi.DNET_ID_SIZE)
    (hsz : (r.io abi).size < 2147483648)
    (hok : (dnet_cmd_write abi n r.cmd r.attr r.data w).1 = 0) :
    (dnet_cmd_write abi n r.cmd r.attr r.data w).2.files
        (write_dir r.cmd.id ++ '/' :: history_file abi r.cmd.id false)
      = if (r.io abi).flags &&& DNET_IO_FLAGS_UPDATE ≠ 0 then
          some ((w.files (write_dir r.cmd.id ++ '/' :: history_file abi r.cmd.id false)).getD []
            ++ history_record abi (r.io abi))
        else w.files (write_dir r.cmd.id ++ '/' :: history_file abi r.cmd.id false) := by
  have hpos : 1 ≤ (r.io abi).size := dnet_cmd_write_ok_size abi n r.cmd r.attr r.data w hok
  have hopen := dnet_cmd_write_ok abi n r.cmd r.attr r.data w hok
  rw [hopen] at hok ⊢
  rw [write_open_ok_files abi r.cmd _ _ w hid hok]
  have hne := history_path_ne abi r.cmd.id hid
  have hint : 0 < int_of_ssize (((r.io abi).size : Nat) : Int) := by
    rw [int_of_ssize_small _ hsz]
    omega
  unfold WriteReq.io at hint hsz hpos ⊢
  simp only []
  by_cases hup : (dnet_convert_io_attr abi (load_dnet_io_attr abi r.data)).flags
      &&& DNET_IO_FLAGS_UPDATE ≠ 0
  · rw [if_pos ⟨trivial, hup, hint⟩, if_pos hup]
    rfl
  · rw [if_neg (fun h => hup h.2.1), if_neg hne, if_neg hup]

theorem write_all_history (abi : Abi) (n : dnet_node) (id : List Nat)
    (hid : id.length = abi.DNET_ID_SIZE) :
    ∀ (reqs : List WriteReq) (w : World), reqs ≠ [] →
      (∀ r ∈ reqs, r.cmd.id = id ∧ (r.io abi).flags &&& DNET_IO_FLAGS_UPDATE ≠ 0
        ∧ (r.io abi).size < 2147483648) →
      (∀ s ∈ (write_all abi n reqs w).1, s = 0) →
      (write_all abi n reqs w).2.files (write_dir id ++ '/' :: history_file abi id false)
        = some ((w.files (write_dir id ++ '/' :: history_file abi id false)).getD []
            ++ history_records abi reqs) := by
  intro reqs
  induction reqs with
  | nil => intro w h; exact absurd rfl h
  | cons r rs ih =>
    intro w _ hreq hok
    obtain ⟨hrid, hrup, hrsz⟩ := hreq r (List.mem_cons_self _ _)
    have hok1 : (dnet_cmd_write abi n r.cmd r.attr r.data w).1 = 0 :=
      hok _ (by simp [write_all])
    have hstep := dnet_cmd_write_history abi n r w (by rw [hrid]; exact hid) hrsz hok1
    rw [if_pos hrup, hrid] at hstep
    by_cases hrs : rs = []
    · subst hrs
      simp only [write_all, history_records, List.append_nil]
      exact hstep
    · have := ih (dnet_cmd_write abi n r.cmd r.attr r.data w).2 hrs
        (fun r' hr' => hreq r' (List.mem_cons_of_mem _ hr'))
        (fun s hs => hok s (by simp only [write_all, List.mem_cons]; exact Or.inr hs))
      simp only [write_all, history_records]
      rw [this, hstep]
      simp

/-- Claim C8 (as amended): for an id of `ID_SIZE` bytes and `K >= 1`, starting from an
absent history log, after `K` successive successful WRITE commands with `UPDATE` to that
id, each of fewer than 2^31 bytes, the history file `hex(id) + ".history"` (in the
directory of the id) is exactly the concatenation, in processing order, of `K`
`io_attr`-sized records, the `j`-th being the `j`-th request's `io_attr` as it stands in
host memory after `dnet_convert_io_attr` - host byte order; and a successful WRITE without
`UPDATE` leaves the history file unchanged. -/
theorem history_after_updates (abi : Abi) (n : dnet_node) (id : List Nat)
    (reqs : List WriteReq) (r0 : WriteReq) (w w0 : World)
    (hid : id.length = abi.DNET_ID_SIZE)
    (hK : 1 ≤ reqs.length)
    (habsent : w.files (write_dir id ++ '/' :: history_file abi id false) = none)
    (hreq : ∀ r ∈ reqs, r.cmd.id = id ∧ (r.io abi).flags &&& DNET_IO_FLAGS_UPDATE ≠ 0
      ∧ (r.io abi).size < 2147483648)
    (hok : ∀ s ∈ (write_all abi n reqs w).1, s = 0)
    (h0id : r0.cmd.id = id)
    (h0up : (r0.io abi).flags &&& DNET_IO_FLAGS_UPDATE = 0)
    (h0sz : (r0.io abi).size < 2147483648)
    (h0ok : (dnet_cmd_write abi n r0.cmd r0.attr r0.data w0).1 = 0) :
    (write_all abi n reqs w).2.files (write_dir id ++ '/' :: history_file abi id false)
        = some (history_records abi reqs) ∧
      history_file abi id false = dnet_dump_id id ++ DNET_HISTORY_SUFFIX ∧
      (dnet_cmd_write abi n r0.cmd r0.attr r0.data w0).2.files
          (write_dir id ++ '/' :: history_file abi id false)
        = w0.files (write_dir id ++ '/' :: history_file abi id false) := by
  refine ⟨?_, history_file_eq abi id hid, ?_⟩
  · have := write_all_history abi n id hid reqs w
      (by intro h; rw [h] at hK; simp at hK) hreq hok
    rw [this, habsent]
    simp
  · have hstep := dnet_cmd_write_history abi n r0 w0 (by rw [h0id]; exact hid) h0sz h0ok
    rw [if_neg (by simp [h0up]), h0id] at hstep
    exact hstep

/-- Claim C8 fails as stated on a little-endian host: after the WRITE with `UPDATE` of
scenario 3 (here to id `01 02 03 04`) the history file holds the `io_attr` in host byte
order; it is not the network-byte-order encoding of the request's `io_attr`, and
applying the `io_attr` converter to it does not give back the request's offset, size and
flags. -/
theorem history_record_is_host_order :
    (dnet_cmd_write (scenario_abi 3) scenario_node scenario_write_cmd scenario_write_attr
        (scenario_write_data DNET_IO_FLAGS_UPDATE) scenario_world).1 = 0 ∧
    (dnet_cmd_write (scenario_abi 3) scenario_node scenario_write_cmd scenario_write_attr
        (scenario_write_data DNET_IO_FLAGS_UPDATE) scenario_world).2.files
        (write_dir [1, 2, 3, 4] ++ '/' :: history_file (scenario_abi 3) [1, 2, 3, 4] false)
      = some [1, 2, 3, 4, 0, 0, 0, 0, 0, 0, 0, 0, 5, 0, 0, 0, 0, 0, 0, 0, 2, 0, 0, 0] ∧
    wire_io_attr [1, 2, 3, 4] 0 5 DNET_IO_FLAGS_UPDATE
      = [1, 2, 3, 4, 0, 0, 0, 0, 0, 0, 0, 0, 0, 0, 0, 0, 0, 0, 0, 5, 0, 0, 0, 2] ∧
    dnet_convert_io_attr (scenario_abi 3) (load_dnet_io_attr (scenario_abi 3)
        [1, 2, 3, 4, 0, 0, 0, 0, 0, 0, 0, 0, 5, 0, 0, 0, 0, 0, 0, 0, 2, 0, 0, 0])
      = { id := [1, 2, 3, 4], offset := 0, size := 360287970189639680, flags := 33554432 } := by
  decide

/-- Two WRITEs of scenario 1 with `UPDATE`, the second at offset 5. -/
theorem history_after_updates_witness :
    (write_all (scenario_abi 3) scenario_node
        [⟨scenario_write_cmd, scenario_write_attr, scenario_write_data DNET_IO_FLAGS_UPDATE⟩,
         ⟨scenario_write_cmd, scenario_write_attr,
          wire_io_attr [1, 2, 3, 4] 5 5 DNET_IO_FLAGS_UPDATE ++ scenario_hello⟩]
        scenario_world).2.files
          (write_dir [1, 2, 3, 4] ++ '/' :: history_file (scenario_abi 3) [1, 2, 3, 4] false)
        = some (history_records (scenario_abi 3)
          [⟨scenario_write_cmd, scenario_write_attr, scenario_write_data DNET_IO_FLAGS_UPDATE⟩,
           ⟨scenario_write_cmd, scenario_write_attr,
            wire_io_attr [1, 2, 3, 4] 5 5 DNET_IO_FLAGS_UPDATE ++ scenario_hello⟩]) ∧
      history_file (scenario_abi 3) [1, 2, 3, 4] false
        = dnet_dump_id [1, 2, 3, 4] ++ DNET_HISTORY_SUFFIX ∧
      (dnet_cmd_write (scenario_abi 3) scenario_node scenario_write_cmd scenario_write_attr
          (scenario_write_data 0) scenario_world).2.files
          (write_dir [1, 2, 3, 4] ++ '/' :: history_file (scenario_abi 3) [1, 2, 3, 4] false)
        = scenario_world.files
          (write_dir [1, 2, 3, 4] ++ '/' :: history_file (scenario_abi 3) [1, 2, 3, 4] false) :=
  history_after_updates (scenario_abi 3) scenario_node [1, 2, 3, 4]
    [⟨scenario_write_cmd, scenario_write_attr, scenario_write_data DNET_IO_FLAGS_UPDATE⟩,
     ⟨scenario_write_cmd, scenario_write_attr,
      wire_io_attr [1, 2, 3, 4] 5 5 DNET_IO_FLAGS_UPDATE ++ scenario_hello⟩]
    ⟨scenario_write_cmd, scenario_write_attr, scenario_write_data 0⟩
    scenario_world scenario_world
    (by decide) (by decide) (by decide) (by decide) (by decide) (by decide) (by decide)
    (by decide) (by decide)

/-! ## Transforms -/

/-- The acknowledgement frame for the error `err`, as handed to the transport. -/
theorem dnet_process_cmd_eq (abi : Abi) (ext : Ext) (n : dnet_node) (st : dnet_net_state)
    (cmd : dnet_cmd) (data : List Nat) (w : World) (err : Int) (wl : World)
    (completed : List (Nat × Int))
    (hl : dnet_process_loop abi ext n st cmd cmd.size cmd.size data w
      = some (err, wl, completed)) :
    (cmd.flags &&& DNET_FLAGS_NEED_ACK ≠ 0 →
      dnet_process_cmd abi ext n st cmd data w = some (err,
        { wl with sent := wl.sent ++
          [{ cmd := dnet_convert_cmd abi
              { id := cmd.id, flags := cmd.flags, status := err, size := 0
                trans := cmd.trans ||| DNET_TRANS_REPLY }
             attr := none, io := none, addr := none, data := [] }] }, completed)) ∧
    (cmd.flags &&& DNET_FLAGS_NEED_ACK = 0 →
      dnet_process_cmd abi ext n st cmd data w = some (err, wl, completed)) := by
  unfold dnet_process_cmd
  rw [hl]
  constructor
  · intro h
    simp only []
    rw [if_pos h]
    rfl
  · intro h
    simp only []
    rw [if_neg (by simp [h])]

/-! ### The dispatcher and the dispatcher of the specification -/

theorem dnet_process_pass_next (abi : Abi) (ext : Ext) (n : dnet_node)
    (st : dnet_net_state) (cmd : dnet_cmd) (size : Nat) (data : List Nat) (w : World)
    (size1 : Nat) (data1 : List Nat) (w1 : World) (entry : Nat × Int)
    (h : dnet_process_pass abi ext n st cmd size data w
      = some (Pass.next size1 data1 w1 entry)) :
    entry.2 = 0 ∧ size1 + sizeof_dnet_attr ≤ size := by
  unfold dnet_process_pass at h
  simp only [] at h
  by_cases h1 : size < sizeof_dnet_attr
  · rw [if_pos h1] at h
    simp at h
  · rw [if_neg h1] at h
    by_cases h2 : size - sizeof_dnet_attr
        < (dnet_convert_attr abi (load_dnet_attr abi data)).size
    · rw [if_pos h2] at h
      simp at h
    · rw [if_neg h2] at h
      cases hs : dnet_process_switch abi ext n st cmd
          (dnet_convert_attr abi (load_dnet_attr abi data)) (data.drop sizeof_dnet_attr) w with
      | none => simp [hs] at h
      | some r =>
        simp only [hs] at h
        by_cases h3 : r.1 ≠ 0
        · rw [if_pos h3] at h
          simp at h
        · rw [if_neg h3] at h
          by_cases h4 : size - sizeof_dnet_attr
              < (dnet_convert_attr abi (load_dnet_attr abi data)).size % 4294967296
          · rw [if_pos h4] at h
            simp at h
          · rw [if_neg h4] at h
            simp only [Option.some.injEq, Pass.next.injEq] at h
            obtain ⟨hsz, _, _, he⟩ := h
            subst he
            subst hsz
            exact ⟨not_not.mp h3, by omega⟩

theorem dnet_process_pass_overrun (abi : Abi) (ext : Ext) (n : dnet_node)
    (st : dnet_net_state) (cmd : dnet_cmd) (size : Nat) (data : List Nat) (w : World)
    (hhdr : sizeof_dnet_attr ≤ size)
    (hover : size - sizeof_dnet_attr < (dnet_convert_attr abi (load_dnet_attr abi data)).size) :
    dnet_process_pass abi ext n st cmd size data w = some (Pass.done (-EPROTO) w []) := by
  unfold dnet_process_pass
  simp only []
  rw [if_neg (by omega), if_pos hover]

/-- The loop, started where `k` attributes have been dispatched with status 0, does what
the loop does from the start, the `k` entries put before its own. -/
theorem dnet_process_upto_loop (abi : Abi) (ext : Ext) (n : dnet_node)
    (st : dnet_net_state) (cmd : dnet_cmd) :
    ∀ (k fuel size : Nat) (data : List Nat) (w : World) (size1 : Nat) (data1 : List Nat)
      (w1 : World) (tr : List (Nat × Int)),
      dnet_process_upto abi ext n st cmd k size data w = some (size1, data1, w1, tr) →
      size ≤ fuel →
      dnet_process_loop abi ext n st cmd fuel size data w
          = (dnet_process_loop abi ext n st cmd (fuel - k) size1 data1 w1).map
            (fun r => (r.1, r.2.1, tr ++ r.2.2)) ∧
        size1 ≤ fuel - k ∧ (∀ e ∈ tr, e.2 = 0) ∧ tr.length = k := by
  intro k
  induction k with
  | zero =>
    intro fuel size data w size1 data1 w1 tr h hle
    simp only [dnet_process_upto, Option.some.injEq, Prod.mk.injEq] at h
    obtain ⟨h1, h2, h3, h4⟩ := h
    subst h1 h2 h3 h4
    refine ⟨?_, by omega, by simp, rfl⟩
    cases hl : dnet_process_loop abi ext n st cmd fuel size data w <;> simp [hl]
  | succ k ih =>
    intro fuel size data w size1 data1 w1 tr h hle
    simp only [dnet_process_upto] at h
    split_ifs at h with h0
    cases hp : dnet_process_pass abi ext n st cmd size data w with
    | none => simp [hp] at h
    | some p =>
      cases p with
      | done e wd c => simp [hp] at h
      | next s2 d2 w2 entry =>
        simp only [hp] at h
        obtain ⟨he0, hlt⟩ := dnet_process_pass_next abi ext n st cmd size data w s2 d2 w2
          entry hp
        cases hq : dnet_process_upto abi ext n st cmd k s2 d2 w2 with
        | none => simp [hq] at h
        | some q =>
          obtain ⟨qs, qd, qw, qtr⟩ := q
          simp only [hq, Option.map_some', Option.some.injEq, Prod.mk.injEq] at h
          obtain ⟨h1, h2, h3, h4⟩ := h
          subst h1 h2 h3 h4
          cases fuel with
          | zero => omega
          | succ fuel =>
            have hs2 : s2 ≤ fuel := by unfold sizeof_dnet_attr at hlt; omega
            obtain ⟨hloop, hsz, hall, hlen⟩ := ih fuel s2 d2 w2 qs qd qw qtr hq hs2
            refine ⟨?_, by omega, ?_, by simp [hlen]⟩
            · simp only [dnet_process_loop, h0, if_false, hp, hloop, Nat.add_sub_add_right]
              cases hl : dnet_process_loop abi ext n st cmd (fuel - k) qs qd qw <;> simp [hl]
            · intro e he
              rcases List.mem_cons.mp he with he | he
              · subst he; exact he0
              · exact hall e he

/-- Claim C4 (as amended): if the parse of the payload reaches an attribute whose header
declares `a.size` greater than the bytes remaining after that header - the first
attribute, or a later one once the `k` attributes before it have each been dispatched with
status 0 - then `dnet_process_cmd` returns `-EPROTO` and no handler is invoked for that
attribute or anything after it: the log of dispatched attributes holds the `k` earlier
ones only, and the world is the one their handlers left, plus the ack under `NEED_ACK`. -/
theorem dnet_process_cmd_overrun (abi : Abi) (ext : Ext) (n : dnet_node)
    (st : dnet_net_state) (cmd : dnet_cmd) (data : List Nat) (w : World) (k size1 : Nat)
    (data1 : List Nat) (w1 : World) (tr : List (Nat × Int))
    (hreach : dnet_process_upto abi ext n st cmd k cmd.size data w
      = some (size1, data1, w1, tr))
    (hhdr : sizeof_dnet_attr ≤ size1)
    (hover : size1 - sizeof_dnet_attr
      < (dnet_convert_attr abi (load_dnet_attr abi data1)).size) :
    (∀ e ∈ tr, e.2 = 0) ∧ tr.length = k ∧
    (cmd.flags &&& DNET_FLAGS_NEED_ACK ≠ 0 →
      dnet_process_cmd abi ext n st cmd data w = some (-EPROTO,
        { w1 with sent := w1.sent ++
          [{ cmd := dnet_convert_cmd abi
              { id := cmd.id, flags := cmd.flags, status := -EPROTO, size := 0
                trans := cmd.trans ||| DNET_TRANS_REPLY }
             attr := none, io := none, addr := none, data := [] }] }, tr)) ∧
    (cmd.flags &&& DNET_FLAGS_NEED_ACK = 0 →
      dnet_process_cmd abi ext n st cmd data w = some (-EPROTO, w1, tr)) := by
  obtain ⟨hloop, hsz, hall, hlen⟩ := dnet_process_upto_loop abi ext n st cmd k cmd.size
    cmd.size data w size1 data1 w1 tr hreach (le_refl _)
  have hl1 : dnet_process_loop abi ext n st cmd (cmd.size - k) size1 data1 w1
      = some (-EPROTO, w1, []) := by
    have hpos : cmd.size - k ≠ 0 := by unfold sizeof_dnet_attr at hhdr; omega
    obtain ⟨f, hf⟩ := Nat.exists_eq_succ_of_ne_zero hpos
    rw [hf]
    have hs0 : size1 ≠ 0 := by unfold sizeof_dnet_attr at hhdr; omega
    simp only [dnet_process_loop, hs0, if_false,
      dnet_process_pass_overrun abi ext n st cmd size1 data1 w1 hhdr hover]
  rw [hl1] at hloop
  simp only [Option.map_some', List.append_nil] at hloop
  have h := dnet_process_cmd_eq abi ext n st cmd data w (-EPROTO) w1 tr hloop
  exact ⟨hall, hlen, h.1, h.2⟩

/-! ## The dispatcher on concrete payloads -/

/-- Claim C4 fails as stated: the payload holds an attribute whose header declares 100
bytes with none remaining, and `dnet_process_cmd` returns `-EPROTO`, but the
REVERSE_LOOKUP handler of the attribute before it has run: it is in the log with status 0
and its reply frame was sent ahead of the ack. -/
theorem overrun_after_dispatched_attribute :
    (dnet_process_cmd (scenario_abi 3) scenario_ext scenario_node scenario_state
        scenario_overrun_hdr scenario_overrun_data scenario_world).map
      (fun r => (r.1, r.2.2, r.2.1.sent.map (fun p =>
        ((dnet_convert_cmd (scenario_abi 3) p.cmd).status,
          p.attr.map (fun a => (dnet_convert_attr (scenario_abi 3) a).cmd)))))
      = some (-EPROTO, [(DNET_CMD_REVERSE_LOOKUP, 0)],
          [(0, some DNET_CMD_REVERSE_LOOKUP), (-EPROTO, none)]) := by
  decide

theorem dnet_process_cmd_overrun_witness :
    (∀ e ∈ [(DNET_CMD_REVERSE_LOOKUP, (0 : Int))], e.2 = 0) ∧
    [(DNET_CMD_REVERSE_LOOKUP, (0 : Int))].length = 1 ∧
    (scenario_overrun_hdr.flags &&& DNET_FLAGS_NEED_ACK ≠ 0 →
      dnet_process_cmd (scenario_abi 3) scenario_ext scenario_node scenario_state
          scenario_overrun_hdr scenario_overrun_data scenario_world = some (-EPROTO,
        { (dnet_cmd_reverse_lookup (scenario_abi 3) scenario_node scenario_overrun_hdr
            scenario_world).2 with
          sent := (dnet_cmd_reverse_lookup (scenario_abi 3) scenario_node scenario_overrun_hdr
            scenario_world).2.sent ++
          [{ cmd := dnet_convert_cmd (scenario_abi 3)
              { id := scenario_overrun_hdr.id, flags := scenario_overrun_hdr.flags
                status := -EPROTO, size := 0
                trans := scenario_overrun_hdr.trans ||| DNET_TRANS_REPLY }
             attr := none, io := none, addr := none, data := [] }] },
        [(DNET_CMD_REVERSE_LOOKUP, 0)])) ∧
    (scenario_overrun_hdr.flags &&& DNET_FLAGS_NEED_ACK = 0 →
      dnet_process_cmd (scenario_abi 3) scenario_ext scenario_node scenario_state
          scenario_overrun_hdr scenario_overrun_data scenario_world = some (-EPROTO,
        (dnet_cmd_reverse_lookup (scenario_abi 3) scenario_node scenario_overrun_hdr
            scenario_world).2, [(DNET_CMD_REVERSE_LOOKUP, 0)])) :=
  dnet_process_cmd_overrun (scenario_abi 3) scenario_ext scenario_node scenario_state
    scenario_overrun_hdr scenario_overrun_data scenario_world 1 12
    (wire_attr DNET_CMD_READ 100 0)
    (dnet_cmd_reverse_lookup (scenario_abi 3) scenario_node scenario_overrun_hdr
      scenario_world).2
    [(DNET_CMD_REVERSE_LOOKUP, 0)] rfl (by decide) (by decide)

/-! ## Byte swaps of the little-endian host -/

theorem le_bytes_length : ∀ (w v : Nat), (le_bytes w v).length = w := by
  intro w
  induction w with
  | zero => intro v; rfl
  | succ w ih => intro v; simp [le_bytes, ih]

theorem le_bytes_lt : ∀ (w v : Nat), ∀ b ∈ le_bytes w v, b < 256 := by
  intro w
  induction w with
  | zero => intro v b hb; simp [le_bytes] at hb
  | succ w ih =>
    intro v b hb
    simp only [le_bytes, List.mem_cons] at hb
    rcases hb with hb | hb
    · subst hb; exact Nat.mod_lt _ (by decide)
    · exact ih _ b hb

theorem of_le_bytes_le_bytes : ∀ (w v : Nat), of_le_bytes (le_bytes w v) = v % 256 ^ w := by
  intro w
  induction w with
  | zero => intro v; simp [le_bytes, of_le_bytes, Nat.mod_one]
  | succ w ih =>
    intro v
    simp only [le_bytes, of_le_bytes, ih, Nat.mod_mod]
    rw [Nat.pow_succ, Nat.mul_comm (256 ^ w) 256, Nat.mod_mul]

theorem le_bytes_of_le_bytes : ∀ bs : List Nat, (∀ b ∈ bs, b < 256) →
    le_bytes bs.length (of_le_bytes bs) = bs := by
  intro bs
  induction bs with
  | nil => intro _; rfl
  | cons b bs ih =>
    intro h
    have hb : b < 256 := h b (List.mem_cons_self _ _)
    have hrest := ih (fun x hx => h x (List.mem_cons_of_mem _ hx))
    simp only [List.length_cons, le_bytes, of_le_bytes]
    have h1 : (b % 256 + 256 * of_le_bytes bs) % 256 = b := by omega
    have h2 : (b % 256 + 256 * of_le_bytes bs) / 256 = of_le_bytes bs := by omega
    rw [h1, h2, hrest]

/-- Reversing the bytes twice gives the value back. -/
theorem bswap_bswap (w v : Nat) (h : v < 256 ^ w) : bswap w (bswap w v) = v := by
  unfold bswap
  have hlen : ((le_bytes w v).reverse).length = w := by simp [le_bytes_length]
  have hlt : ∀ b ∈ (le_bytes w v).reverse, b < 256 := by
    intro b hb
    exact le_bytes_lt w v b (List.mem_reverse.mp hb)
  have := le_bytes_of_le_bytes _ hlt
  rw [hlen] at this
  rw [this, List.reverse_reverse, of_le_bytes_le_bytes, Nat.mod_eq_of_lt h]

/-! ## The READ request a client builds -/

/-- Claim C9 fails on the code for a non-zero size: for the `io_attr` with size 1 (what
`dnet_read_file(n, file, 0, 1)` passes down), `dnet_io_trans_create` declares
`attr.size = sizeof(io_attr) + 1` and `cmd.size = sizeof(attr) + sizeof(io_attr) + 1`,
and `dnet_cmd_read`, given that attribute with the `io_attr` as its body, returns
`-EINVAL` without opening anything. -/
theorem read_request_with_size_is_rejected :
    (dnet_io_trans_create (scenario_abi 3) scenario_world [1, 2, 3, 4] DNET_CMD_READ
        { id := [1, 2, 3, 4], offset := 0, size := 1, flags := 0 }
        (some scenario_state) (0, 9)).map
      (fun t =>
        ((dnet_convert_cmd (scenario_abi 3) t.1).size,
          (dnet_convert_attr (scenario_abi 3) t.2.1).cmd,
          (dnet_convert_attr (scenario_abi 3) t.2.1).size))
      = some (sizeof_dnet_attr + sizeof_dnet_io_attr (scenario_abi 3) + 1, DNET_CMD_READ,
          sizeof_dnet_io_attr (scenario_abi 3) + 1) ∧
    (dnet_io_trans_create (scenario_abi 3) scenario_world [1, 2, 3, 4] DNET_CMD_READ
        { id := [1, 2, 3, 4], offset := 0, size := 1, flags := 0 }
        (some scenario_state) (0, 9)).map
      (fun t =>
        (dnet_cmd_read (scenario_abi 3) (dnet_convert_cmd (scenario_abi 3) t.1)
          (dnet_convert_attr (scenario_abi 3) t.2.1)
          (store_dnet_io_attr (scenario_abi 3) t.2.2) (scenario_written 3)).map
            (fun r => (r.1, r.2.ops.length, r.2.sent.length)))
      = some (some (-EINVAL, (scenario_written 3).ops.length, 0)) := by
  decide

/-! ## The reverse lookup handshake -/

/-- Claim C10: with a 32-bit converter that is an involution and a transport that hands
the initiator the reply as sent, for every peer `P`, every request, every socket and
every connect address `sa`: the reply `dnet_cmd_reverse_lookup` sends declares
`cmd.size = sizeof(attr) + sizeof(address attr)` and `attr.size = sizeof(address attr)`,
and `dnet_add_state`, given that reply, calls `dnet_state_create` with `P`'s id, address
bytes and address length, returns 0, and the peer table gains the state with id `OID_P`,
address `addr_P` and length `len_P`. -/
theorem reverse_lookup_handshake (abi : Abi) (P : dnet_node) (req : dnet_cmd)
    (wP wI : World) (sock rc : Int) (sa : List Nat)
    (hinv : ∀ v, v < 4294967296 → abi.dnet_bswap32 (abi.dnet_bswap32 v) = v)
    (hlen : P.addr_len < 4294967296)
    (haddr : P.addr_len ≤ P.addr.length)
    (hsock : 0 ≤ sock)
    (hsend : wI.send_rc wI.sent.length = 0)
    (hrc : 0 ≤ rc)
    (hcreate : wI.state_create_ok = true) :
    (dnet_cmd_reverse_lookup abi P req wP).2.sent = wP.sent
      ++ [Packet.of_addr_cmd (dnet_convert_addr_cmd abi (reverse_lookup_reply abi P req))] ∧
    (reverse_lookup_reply abi P req).cmd.size = sizeof_dnet_attr + sizeof_dnet_addr_attr abi ∧
    (reverse_lookup_reply abi P req).a.size = sizeof_dnet_addr_attr abi ∧
    (dnet_add_state abi sock sa
        (rc, dnet_convert_addr_cmd abi (reverse_lookup_reply abi P req)) wI).1 = 0 ∧
    (dnet_add_state abi sock sa
        (rc, dnet_convert_addr_cmd abi (reverse_lookup_reply abi P req)) wI).2.2
      = some (P.id, memcpy_zeroed abi.SOCKADDR_SIZE P.addr P.addr_len, P.addr_len, sock) ∧
    (dnet_add_state abi sock sa
        (rc, dnet_convert_addr_cmd abi (reverse_lookup_reply abi P req)) wI).2.1.states
      = wI.states ++ [{ id := P.id, addr := P.addr.take P.addr_len, addr_len := P.addr_len
                        s := sock }] := by
  have hl : abi.dnet_bswap32 (abi.dnet_bswap32 P.addr_len) = P.addr_len := hinv _ hlen
  have htake : (memcpy_zeroed abi.SOCKADDR_SIZE P.addr P.addr_len).take P.addr_len
      = P.addr.take P.addr_len := by
    unfold memcpy_zeroed
    rw [List.take_append_of_le_length (by simp; omega)]
    simp
  refine ⟨rfl, ?_, ?_, ?_, ?_, ?_⟩
  · simp [reverse_lookup_reply, sizeof_dnet_addr_cmd]
    omega
  · simp [reverse_lookup_reply, sizeof_dnet_addr_cmd]
    omega
  · simp [dnet_add_state, dnet_send, dnet_state_create, hsend, hcreate, not_lt.mpr hsock,
      not_lt.mpr hrc]
  · simp [dnet_add_state, dnet_send, dnet_state_create, hsend, hcreate, not_lt.mpr hsock,
      not_lt.mpr hrc, dnet_convert_addr_cmd, dnet_convert_cmd, dnet_convert_addr_attr,
      reverse_lookup_reply, hl]
  · simp [dnet_add_state, dnet_send, dnet_state_create, hsend, hcreate, not_lt.mpr hsock,
      not_lt.mpr hrc, dnet_convert_addr_cmd, dnet_convert_cmd, dnet_convert_addr_attr,
      reverse_lookup_reply, hl, htake]

theorem reverse_lookup_handshake_witness :
    (dnet_cmd_reverse_lookup (scenario_abi 3) scenario_node scenario_read_cmd
        scenario_world).2.sent = scenario_world.sent
      ++ [Packet.of_addr_cmd (dnet_convert_addr_cmd (scenario_abi 3)
            (reverse_lookup_reply (scenario_abi 3) scenario_node scenario_read_cmd))] ∧
    (reverse_lookup_reply (scenario_abi 3) scenario_node scenario_read_cmd).cmd.size
      = sizeof_dnet_attr + sizeof_dnet_addr_attr (scenario_abi 3) ∧
    (reverse_lookup_reply (scenario_abi 3) scenario_node scenario_read_cmd).a.size
      = sizeof_dnet_addr_attr (scenario_abi 3) ∧
    (dnet_add_state (scenario_abi 3) 5 [2, 0, 4, 210, 127, 0, 0, 1]
        (0, dnet_convert_addr_cmd (scenario_abi 3)
          (reverse_lookup_reply (scenario_abi 3) scenario_node scenario_read_cmd))
        scenario_world).1 = 0 ∧
    (dnet_add_state (scenario_abi 3) 5 [2, 0, 4, 210, 127, 0, 0, 1]
        (0, dnet_convert_addr_cmd (scenario_abi 3)
          (reverse_lookup_reply (scenario_abi 3) scenario_node scenario_read_cmd))
        scenario_world).2.2
      = some (scenario_node.id,
          memcpy_zeroed (scenario_abi 3).SOCKADDR_SIZE scenario_node.addr
            scenario_node.addr_len, scenario_node.addr_len, 5) ∧
    (dnet_add_state (scenario_abi 3) 5 [2, 0, 4, 210, 127, 0, 0, 1]
        (0, dnet_convert_addr_cmd (scenario_abi 3)
          (reverse_lookup_reply (scenario_abi 3) scenario_node scenario_read_cmd))
        scenario_world).2.1.states
      = scenario_world.states ++ [{ id := scenario_node.id
                                    addr := scenario_node.addr.take scenario_node.addr_len
                                    addr_len := scenario_node.addr_len, s := 5 }] :=
  reverse_lookup_handshake (scenario_abi 3) scenario_node scenario_read_cmd scenario_world
    scenario_world 5 0 [2, 0, 4, 210, 127, 0, 0, 1]
    (fun v hv => bswap_bswap 4 v hv) (by decide) (by decide) (by decide) rfl (by decide) rfl

/-! ## Object paths stay below the root -/

theorem hex_digit_lower (n : Nat) (h : n < 16) : is_lower_hex (hex_digit n) = true := by
  revert n
  decide

theorem fmt_02x_lower (b : Nat) : ∀ c ∈ fmt_02x b, is_lower_hex c = true := by
  intro c hc
  simp only [fmt_02x, List.mem_cons, List.mem_singleton, List.not_mem_nil, or_false] at hc
  rcases hc with h | h
  · rw [h]; exact hex_digit_lower _ (Nat.mod_lt _ (by decide))
  · rw [h]; exact hex_digit_lower _ (Nat.mod_lt _ (by decide))

theorem dnet_dump_id_lower (id : List Nat) : ∀ c ∈ dnet_dump_id id, is_lower_hex c = true := by
  induction id with
  | nil => intro c hc; simp [dnet_dump_id] at hc
  | cons b bs ih =>
    intro c hc
    simp only [dnet_dump_id, List.mem_append] at hc
    rcases hc with h | h
    · exact fmt_02x_lower b c h
    · exact ih c h

theorem count_of_lower (l : List Char) (x : Char) (hx : is_lower_hex x = false)
    (h : ∀ c ∈ l, is_lower_hex c = true) : l.count x = 0 := by
  rw [List.count_eq_zero]
  intro hm
  rw [h x hm] at hx
  exact Bool.noConfusion hx

/-- Claim C11: for an id `I` of `ID_SIZE` bytes, the directory name and the file name
`dnet_cmd_write` prints are `hex(I[0])` and `hex(I)` in full (2 and `2 * ID_SIZE`
characters, neither cut by its buffer), the path `dnet_cmd_read` prints is
`hex(I[0]) + "/" + hex(I)` in full and is the directory name, a `/` and the file name of
the write; all characters of the two names are in `[0-9a-f]`, so the path has exactly one
`/`, no `.` and does not begin with `/`. -/
theorem object_path_below_root (abi : Abi) (id : List Nat)
    (hid : id.length = abi.DNET_ID_SIZE) :
    write_dir id = fmt_02x (id.headD 0) ∧
    write_file abi id = dnet_dump_id id ∧
    read_file abi id = fmt_02x (id.headD 0) ++ '/' :: dnet_dump_id id ∧
    read_file abi id = write_dir id ++ '/' :: write_file abi id ∧
    (write_dir id).length = 2 ∧ (write_file abi id).length = 2 * abi.DNET_ID_SIZE ∧
    (∀ c ∈ write_dir id, is_lower_hex c = true) ∧
    (∀ c ∈ write_file abi id, is_lower_hex c = true) ∧
    (read_file abi id).count '/' = 1 ∧ '.' ∉ read_file abi id ∧
    (read_file abi id).head? ≠ some '/' := by
  have hd := write_dir_eq id
  have hf := write_file_eq abi id hid
  have hr := read_file_eq abi id hid
  have hdl : ∀ c ∈ write_dir id, is_lower_hex c = true := by
    rw [hd]; exact fmt_02x_lower _
  have hfl : ∀ c ∈ write_file abi id, is_lower_hex c = true := by
    rw [hf]; exact dnet_dump_id_lower _
  refine ⟨hd, hf, by rw [hr, hd, hf], hr, by rw [hd]; rfl,
    by rw [hf, dnet_dump_id_length, hid], hdl, hfl, ?_, ?_, ?_⟩
  · rw [hr, List.count_append, List.count_cons_self,
      count_of_lower _ '/' (by decide) hdl, count_of_lower _ '/' (by decide) hfl]
  · rw [hr]
    intro hm
    rcases List.mem_append.mp hm with h | h
    · have := hdl _ h; revert this; decide
    · rcases List.mem_cons.mp h with h | h
      · revert h; decide
      · have := hfl _ h; revert this; decide
  · rw [hr, hd]
    simp only [fmt_02x, List.cons_append, List.head?_cons, ne_eq, Option.some.injEq]
    intro h
    have := hex_digit_lower (id.headD 0 / 16 % 16) (Nat.mod_lt _ (by decide))
    rw [h] at this
    revert this
    decide

theorem object_path_below_root_witness :
    write_dir [1, 2, 3, 4] = ['0', '1'] ∧
    write_file (scenario_abi 3) [1, 2, 3, 4] = ['0', '1', '0', '2', '0', '3', '0', '4'] ∧
    read_file (scenario_abi 3) [1, 2, 3, 4]
      = ['0', '1', '/', '0', '1', '0', '2', '0', '3', '0', '4'] ∧
    (read_file (scenario_abi 3) [1, 2, 3, 4]).count '/' = 1 :=
  have h := object_path_below_root (scenario_abi 3) [1, 2, 3, 4] rfl
  ⟨by decide, by decide, by decide, h.2.2.2.2.2.2.2.2.1⟩

/-! ## Which id names the files of a WRITE -/

theorem object_path_eq (abi : Abi) (id : List Nat) (h : id.length = abi.DNET_ID_SIZE) :
    write_dir id ++ '/' :: write_file abi id = spec_object_path id := by
  rw [write_dir_eq, write_file_eq abi id h]
  rfl

theorem history_path_eq (abi : Abi) (id : List Nat) (h : id.length = abi.DNET_ID_SIZE) :
    write_dir id ++ '/' :: history_file abi id false = spec_history_path id := by
  rw [write_dir_eq, history_file_eq abi id h]
  rfl

/-- Claim C12 (as amended): for every accepted WRITE of fewer than 2^31 bytes whose
command header carries an id of `ID_SIZE` bytes, the data file written is `HH/H` and the
history file appended to under `UPDATE` is `HH/H.history` with `H = hex(cmd.id)`, the id
of the command header; no other file of the store changes, whatever id the `io_attr`
carries. -/
theorem dnet_cmd_write_files_of_header_id (abi : Abi) (n : dnet_node) (cmd : dnet_cmd)
    (attr : dnet_attr) (data : List Nat) (w : World)
    (hid : cmd.id.length = abi.DNET_ID_SIZE)
    (hsz : (dnet_convert_io_attr abi (load_dnet_io_attr abi data)).size < 2147483648)
    (hok : (dnet_cmd_write abi n cmd attr data w).1 = 0) :
    (dnet_cmd_write abi n cmd attr data w).2.files (spec_object_path cmd.id)
      = some (pwrite_bytes ((w.files (spec_object_path cmd.id)).getD [])
          (if (dnet_convert_io_attr abi (load_dnet_io_attr abi data)).flags
                &&& DNET_IO_FLAGS_APPEND ≠ 0
            then ((w.files (spec_object_path cmd.id)).getD []).length
            else (dnet_convert_io_attr abi (load_dnet_io_attr abi data)).offset)
          ((data.drop (sizeof_dnet_io_attr abi)).take
            (dnet_convert_io_attr abi (load_dnet_io_attr abi data)).size)) ∧
    (dnet_cmd_write abi n cmd attr data w).2.files (spec_history_path cmd.id)
      = (if (dnet_convert_io_attr abi (load_dnet_io_attr abi data)).flags
              &&& DNET_IO_FLAGS_UPDATE ≠ 0
          then some ((w.files (spec_history_path cmd.id)).getD []
            ++ history_record abi (dnet_convert_io_attr abi (load_dnet_io_attr abi data)))
          else w.files (spec_history_path cmd.id)) ∧
    (∀ p, p ≠ spec_object_path cmd.id → p ≠ spec_history_path cmd.id →
      (dnet_cmd_write abi n cmd attr data w).2.files p = w.files p) := by
  have hhist := dnet_cmd_write_history abi n ⟨cmd, attr, data⟩ w hid hsz hok
  simp only [WriteReq.io] at hhist
  rw [history_path_eq abi cmd.id hid] at hhist
  have hopen := dnet_cmd_write_ok abi n cmd attr data w hok
  have hfiles := write_open_ok_files abi cmd
    (dnet_convert_io_attr abi (load_dnet_io_attr abi data))
    (data.drop (sizeof_dnet_io_attr abi)) w hid (by rw [← hopen]; exact hok)
  rw [← hopen, history_path_eq abi cmd.id hid, object_path_eq abi cmd.id hid] at hfiles
  have hne : spec_object_path cmd.id ≠ spec_history_path cmd.id := by
    have := history_path_ne abi cmd.id hid
    rw [history_path_eq abi cmd.id hid, object_path_eq abi cmd.id hid] at this
    exact fun h => this h.symm
  refine ⟨?_, hhist, ?_⟩
  · rw [hfiles]
    simp [hne]
  · intro p hp1 hp2
    rw [hfiles]
    simp [hp1, hp2]

/-- Claim C12 fails as stated: a WRITE with `UPDATE` whose header id is `01 02 03 04` and
whose `io_attr` id is `aa bb cc dd` is accepted; the data file and the history log it
leaves are those of `01 02 03 04`, nothing exists under the name of `aa bb cc dd`, and a
READ of `aa bb cc dd` then fails with `-ENOENT`. -/
theorem write_files_follow_header_id :
    (dnet_cmd_write (scenario_abi 3) scenario_node scenario_write_cmd scenario_write_attr
      scenario_split_data scenario_world).1 = 0 ∧
    (dnet_cmd_write (scenario_abi 3) scenario_node scenario_write_cmd scenario_write_attr
      scenario_split_data scenario_world).2.files (spec_object_path [170, 187, 204, 221])
      = none ∧
    (dnet_cmd_write (scenario_abi 3) scenario_node scenario_write_cmd scenario_write_attr
      scenario_split_data scenario_world).2.files (spec_history_path [170, 187, 204, 221])
      = none ∧
    (dnet_cmd_write (scenario_abi 3) scenario_node scenario_write_cmd scenario_write_attr
      scenario_split_data scenario_world).2.files (spec_object_path [1, 2, 3, 4])
      = some scenario_hello ∧
    ((dnet_cmd_write (scenario_abi 3) scenario_node scenario_write_cmd scenario_write_attr
      scenario_split_data scenario_world).2.files (spec_history_path [1, 2, 3, 4])).isSome
      = true ∧
    (dnet_cmd_read (scenario_abi 3) scenario_read_cmd scenario_read_attr scenario_split_read
      (dnet_cmd_write (scenario_abi 3) scenario_node scenario_write_cmd scenario_write_attr
        scenario_split_data scenario_world).2).map Prod.fst = some (-ENOENT) := by
  refine ⟨by decide, by decide, by decide, by decide, by decide, by decide⟩

theorem dnet_cmd_write_files_of_header_id_witness :
    (dnet_cmd_write (scenario_abi 3) scenario_node scenario_write_cmd scenario_write_attr
      scenario_split_data scenario_world).1 = 0 ∧
    ∀ p, p ≠ spec_object_path [1, 2, 3, 4] → p ≠ spec_history_path [1, 2, 3, 4] →
      (dnet_cmd_write (scenario_abi 3) scenario_node scenario_write_cmd scenario_write_attr
        scenario_split_data scenario_world).2.files p = scenario_world.files p :=
  ⟨by decide, (dnet_cmd_write_files_of_header_id (scenario_abi 3) scenario_node
    scenario_write_cmd scenario_write_attr scenario_split_data scenario_world
    (by decide) (by decide) (by decide)).2.2⟩

/-! ## Transaction numbers of replies -/

/-- Claim C13 fails on the code for LOOKUP: to a request with transaction number 5,
`dnet_cmd_lookup` sends one frame whose `trans`, read back through `dnet_convert_cmd`, is
the bare `REPLY` bit - the number is 0, not 5 - while `dnet_cmd_reverse_lookup` answers the
same header with `5 | REPLY`. -/
theorem lookup_reply_loses_transaction_number :
    (dnet_cmd_lookup (scenario_abi 3) scenario_ext scenario_node scenario_state
        scenario_lookup_cmd scenario_world).2.sent.map
      (fun p => (dnet_convert_cmd (scenario_abi 3) p.cmd).trans) = [DNET_TRANS_REPLY] ∧
    (dnet_cmd_reverse_lookup (scenario_abi 3) scenario_node scenario_lookup_cmd
        scenario_world).2.sent.map
      (fun p => (dnet_convert_cmd (scenario_abi 3) p.cmd).trans)
      = [scenario_lookup_cmd.trans ||| DNET_TRANS_REPLY] ∧
    scenario_lookup_cmd.trans ||| DNET_TRANS_REPLY ≠ DNET_TRANS_REPLY := by
  refine ⟨by decide, by decide, by decide⟩

/-! ## The status of `dnet_add_state` -/

/-- Claim C16 fails on the code: with the socket created, the request sent, the reply
received (`dnet_recv` returns 0) and `dnet_state_create` yielding no state,
`dnet_add_state` closes the socket, adds no peer, and returns 0. -/
theorem add_state_returns_zero_without_peer :
    (dnet_add_state (scenario_abi 3) 5 scenario_state.addr (0, scenario_peer_reply)
      scenario_no_state).1 = 0 ∧
    (dnet_add_state (scenario_abi 3) 5 scenario_state.addr (0, scenario_peer_reply)
      scenario_no_state).2.1.states = [] ∧
    (dnet_add_state (scenario_abi 3) 5 scenario_state.addr (0, scenario_peer_reply)
      scenario_no_state).2.1.ops = [SysOp.close 5] := by
  refine ⟨by decide, by decide, by decide⟩

/-! ## Replacing the root -/

/-- Claim C15 (as amended): `dnet_setup_root` releases the previous root first - when a
root is set its handle is closed before anything else, whatever follows. It returns 0
exactly when the path could be duplicated and `open` gave a descriptor, and then the node
holds the new path with that descriptor; otherwise it returns a negative error, `-ENOMEM`
with no root set when the duplication failed and `-errno` when `open` failed. -/
theorem dnet_setup_root_releases_first (n : dnet_node) (root : Path)
    (open_rc open_errno : Int) (w : World) (herr : 0 < open_errno) :
    ((dnet_setup_root n root open_rc open_errno w).1 = 0
      ∨ (dnet_setup_root n root open_rc open_errno w).1 < 0) ∧
    ((dnet_setup_root n root open_rc open_errno w).1 = 0
      ↔ w.malloc_ok = true ∧ 0 ≤ open_rc) ∧
    ((dnet_setup_root n root open_rc open_errno w).1 = 0 →
      (dnet_setup_root n root open_rc open_errno w).2.1.root = some root ∧
      (dnet_setup_root n root open_rc open_errno w).2.1.rootfd = open_rc) ∧
    (n.root.isSome = true →
      (dnet_setup_root n root open_rc open_errno w).2.2.ops
        = w.ops ++ [SysOp.close n.rootfd]) ∧
    (n.root = none → (dnet_setup_root n root open_rc open_errno w).2.2.ops = w.ops) ∧
    (w.malloc_ok = false →
      (dnet_setup_root n root open_rc open_errno w).1 = -ENOMEM ∧
      (dnet_setup_root n root open_rc open_errno w).2.1.root = none) ∧
    (w.malloc_ok = true → open_rc < 0 →
      (dnet_setup_root n root open_rc open_errno w).1 = -open_errno) := by
  have hm : (if n.root.isSome = true then w.log (SysOp.close n.rootfd) else w).malloc_ok
      = w.malloc_ok := by
    by_cases h : n.root.isSome = true
    · rw [if_pos h]; rfl
    · rw [if_neg h]
  have hops1 : n.root.isSome = true →
      (if n.root.isSome = true then w.log (SysOp.close n.rootfd) else w).ops
        = w.ops ++ [SysOp.close n.rootfd] := by
    intro h; rw [if_pos h]; rfl
  have hops0 : n.root = none →
      (if n.root.isSome = true then w.log (SysOp.close n.rootfd) else w).ops = w.ops := by
    intro h; rw [h]; rfl
  unfold dnet_setup_root
  generalize (if n.root.isSome = true then w.log (SysOp.close n.rootfd) else w) = w1
    at hm hops1 hops0
  by_cases hmal : w.malloc_ok = true
  · have h1 : ¬ w1.malloc_ok = false := by rw [hm, hmal]; decide
    have hnf : ¬ w.malloc_ok = false := by rw [hmal]; decide
    by_cases ho : open_rc < 0
    · rw [if_neg h1, if_pos ho]
      exact ⟨Or.inr (show -open_errno < 0 by omega),
        ⟨fun h => absurd (show -open_errno = 0 from h) (by omega),
          fun h => absurd h.2 (by omega)⟩,
        fun h => absurd (show -open_errno = 0 from h) (by omega), hops1, hops0,
        fun h => absurd h hnf, fun _ _ => rfl⟩
    · rw [if_neg h1, if_neg ho]
      exact ⟨Or.inl rfl, ⟨fun _ => ⟨hmal, by omega⟩, fun _ => rfl⟩,
        fun _ => ⟨rfl, rfl⟩, hops1, hops0, fun h => absurd h hnf, fun _ h => absurd h ho⟩
  · have h0 : w.malloc_ok = false := by
      cases hb : w.malloc_ok
      · rfl
      · exact absurd hb hmal
    have h1 : w1.malloc_ok = false := by rw [hm, h0]
    rw [if_pos h1]
    exact ⟨Or.inr (show -ENOMEM < 0 by decide),
      ⟨fun h => absurd (show -ENOMEM = 0 from h) (by decide), fun h => absurd h.1 hmal⟩,
      fun h => absurd (show -ENOMEM = 0 from h) (by decide), hops1, hops0,
      fun _ => ⟨rfl, rfl⟩, fun h => absurd h hmal⟩

/-- Claim C15 fails as stated: on a node whose root is `root` with handle 3, a
`dnet_setup_root` to a directory that cannot be opened (`ENOENT`) returns `-ENOENT`, yet
the previous pair is gone: handle 3 was closed, and the node is left with the new path
as its root and 0 as its handle, which `open` never returned. -/
theorem failed_setup_root_drops_old_root :
    (dnet_setup_root scenario_node ['n', 'e', 'w'] (-1) ENOENT scenario_world).1 = -ENOENT ∧
    ((dnet_setup_root scenario_node ['n', 'e', 'w'] (-1) ENOENT scenario_world).2.1.root,
      (dnet_setup_root scenario_node ['n', 'e', 'w'] (-1) ENOENT scenario_world).2.1.rootfd)
      ≠ (scenario_node.root, scenario_node.rootfd) ∧
    (dnet_setup_root scenario_node ['n', 'e', 'w'] (-1) ENOENT scenario_world).2.2.ops
      = [SysOp.close 3] ∧
    (dnet_setup_root scenario_node ['n', 'e', 'w'] (-1) ENOENT scenario_world).2.1.root
      = some ['n', 'e', 'w'] ∧
    (dnet_setup_root scenario_node ['n', 'e', 'w'] (-1) ENOENT scenario_world).2.1.rootfd
      = 0 := by
  refine ⟨by decide, by decide, by decide, by decide, by decide⟩

theorem dnet_setup_root_releases_first_witness :
    (0 : Int) < ENOENT ∧
    (dnet_setup_root scenario_node ['n', 'e', 'w'] (-1) ENOENT scenario_world).2.2.ops
      = scenario_world.ops ++ [SysOp.close scenario_node.rootfd] :=
  ⟨by decide, (dnet_setup_root_releases_first scenario_node ['n', 'e', 'w'] (-1) ENOENT
    scenario_world (by decide)).2.2.2.1 (by decide)⟩

/-! ## The driver loop of `dnet_write_file` -/

/-- An iteration that leaves through `continue` with the variables as it found them
repeats for ever: the loop has not ended after any number of iterations. -/
theorem write_file_loop_stuck {P : Type} (abi : Abi) (fsc : MapCalls)
    (first : Option dnet_net_state) (insert : Int × Nat) (file fd : Path) (size : Nat)
    (s : WriteFile P)
    (h : dnet_write_file_pass abi fsc first insert file fd size s = (false, s)) :
    ∀ fuel, dnet_write_file_loop abi fsc first insert file fd size fuel s = none := by
  intro fuel
  induction fuel with
  | zero => rfl
  | succ k ih =>
    unfold dnet_write_file_loop
    rw [h]
    exact ih

/-- An iteration that leaves through `continue` into a state that repeats itself: the
loop has not ended after any number of iterations. -/
theorem write_file_loop_stuck_next {P : Type} (abi : Abi) (fsc : MapCalls)
    (first : Option dnet_net_state) (insert : Int × Nat) (file fd : Path) (size : Nat)
    (s : WriteFile P)
    (h1 : (dnet_write_file_pass abi fsc first insert file fd size s).1 = false)
    (h2 : dnet_write_file_pass abi fsc first insert file fd size
        (dnet_write_file_pass abi fsc first insert file fd size s).2
      = (false, (dnet_write_file_pass abi fsc first insert file fd size s).2)) :
    ∀ fuel, dnet_write_file_loop abi fsc first insert file fd size fuel s = none := by
  intro fuel
  cases fuel with
  | zero => rfl
  | succ k =>
    have h := write_file_loop_stuck abi fsc first insert file fd size _ h2 k
    unfold dnet_write_file_loop
    generalize dnet_write_file_pass abi fsc first insert file fd size s = r at h1 h
    show (if r.1 = true then some r.2
      else dnet_write_file_loop abi fsc first insert file fd size k r.2) = none
    rw [h1, h]
    rfl

/-- Claim C14 fails on the code: with the one-entry registry [succeed] and an empty file
(`mmap` of length 0 fails with `EINVAL`), the first iteration of the loop of
`dnet_write_file` ends through `continue` on the status `-EINVAL` with the cursor at 0,
where it started; every later iteration does the same, so `dnet_write_file` does not
return, whatever the number of iterations granted. -/
theorem write_file_of_empty_file_never_ends :
    (dnet_write_file_pass (scenario_abi 3) empty_file_calls (some scenario_state) (0, 1)
      ['f'] ['f'] 0
      (write_file_start (scenario_abi 3) [transform_succeed] scenario_empty_file)).1
      = false ∧
    (dnet_write_file_pass (scenario_abi 3) empty_file_calls (some scenario_state) (0, 1)
      ['f'] ['f'] 0
      (write_file_start (scenario_abi 3) [transform_succeed] scenario_empty_file)).2.err
      = -EINVAL ∧
    (dnet_write_file_pass (scenario_abi 3) empty_file_calls (some scenario_state) (0, 1)
      ['f'] ['f'] 0
      (write_file_start (scenario_abi 3) [transform_succeed] scenario_empty_file)).2.pos
      = (write_file_start (scenario_abi 3) [transform_succeed] scenario_empty_file).pos ∧
    ∀ fuel, dnet_write_file (scenario_abi 3) empty_file_calls (some scenario_state) (0, 1)
      fuel [transform_succeed] ['f'] scenario_empty_file = none := by
  refine ⟨by decide, by decide, by decide, ?_⟩
  intro fuel
  show Option.map _ (dnet_write_file_loop (scenario_abi 3) empty_file_calls
    (some scenario_state) (0, 1) ['f'] ['f'] 0 fuel
    (write_file_start (scenario_abi 3) [transform_succeed]
      (sys_fstat (sys_openat_rdonly scenario_empty_file ['f']).2 ['f']).2.2)) = none
  rw [write_file_loop_stuck_next (scenario_abi 3) empty_file_calls (some scenario_state)
    (0, 1) ['f'] ['f'] 0
    (write_file_start (scenario_abi 3) [transform_succeed]
      (sys_fstat (sys_openat_rdonly scenario_empty_file ['f']).2 ['f']).2.2) rfl rfl fuel]
  rfl

/-! ## The dispatcher on a payload of two attributes -/

end Elliptics
